import Mathlib

/-!
Verification development for the FoodEnough backend (`Backend/main.py`).

The adaptive recalibration engine and its helpers are shallowly embedded
over exact rationals: every Python float is modelled as a `ℚ`, Python's
built-in `round` (banker's rounding, half to even) as `pyRound`, `None`
as `Option`, and Python truthiness of optional numbers/strings by explicit
helpers.  Database handles appear only through the data they provide.
-/

namespace FoodEnough

/-- Python's built-in `round` on a real value: nearest integer, ties to even. -/
def pyRound (q : ℚ) : ℤ :=
  if q - (⌊q⌋ : ℚ) < 1/2 then ⌊q⌋
  else if 1/2 < q - (⌊q⌋ : ℚ) then ⌊q⌋ + 1
  else if ⌊q⌋ % 2 = 0 then ⌊q⌋ else ⌊q⌋ + 1

/-- Python's `round(x, 1)`: round to one decimal digit, ties to even. -/
def roundTo1 (q : ℚ) : ℚ := (pyRound (q * 10) : ℚ) / 10

theorem pyRound_intCast (n : ℤ) : pyRound (n : ℚ) = n := by
  unfold pyRound
  rw [Int.floor_intCast]
  norm_num

theorem pyRound_zero : pyRound 0 = 0 := by
  simpa using pyRound_intCast 0

theorem floor_le_pyRound (q : ℚ) : ⌊q⌋ ≤ pyRound q := by
  unfold pyRound
  split_ifs <;> omega

theorem pyRound_le_floor_add_one (q : ℚ) : pyRound q ≤ ⌊q⌋ + 1 := by
  unfold pyRound
  split_ifs <;> omega

theorem pyRound_le (q : ℚ) : (pyRound q : ℚ) ≤ q + 1/2 := by
  unfold pyRound
  have hfl : (⌊q⌋ : ℚ) ≤ q := Int.floor_le q
  split_ifs with h1 h2 h3
  · linarith
  · push_cast
    linarith
  · have : q - (⌊q⌋ : ℚ) = 1/2 := le_antisymm (not_lt.mp h2) (not_lt.mp h1)
    linarith
  · push_cast
    have : q - (⌊q⌋ : ℚ) = 1/2 := le_antisymm (not_lt.mp h2) (not_lt.mp h1)
    linarith

theorem le_pyRound (q : ℚ) : q - 1/2 ≤ (pyRound q : ℚ) := by
  unfold pyRound
  have hfl : q - (⌊q⌋ : ℚ) < 1 := by
    have := Int.lt_floor_add_one q
    push_cast at this ⊢
    linarith
  split_ifs with h1 h2 h3
  · linarith
  · push_cast
    linarith
  · have : q - (⌊q⌋ : ℚ) = 1/2 := le_antisymm (not_lt.mp h2) (not_lt.mp h1)
    linarith
  · push_cast
    have : q - (⌊q⌋ : ℚ) = 1/2 := le_antisymm (not_lt.mp h2) (not_lt.mp h1)
    linarith

theorem pyRound_mono {a b : ℚ} (hab : a ≤ b) : pyRound a ≤ pyRound b := by
  rcases lt_or_eq_of_le (Int.floor_mono hab) with hlt | heq
  · calc pyRound a ≤ ⌊a⌋ + 1 := pyRound_le_floor_add_one a
      _ ≤ ⌊b⌋ := by omega
      _ ≤ pyRound b := floor_le_pyRound b
  · unfold pyRound
    have hfr : a - (⌊a⌋ : ℚ) ≤ b - (⌊b⌋ : ℚ) := by
      rw [heq]; linarith
    rw [heq]
    split_ifs <;> first | omega | (exfalso; linarith)

theorem pyRound_nonneg {q : ℚ} (hq : 0 ≤ q) : 0 ≤ pyRound q := by
  have h0 : (0:ℤ) ≤ ⌊q⌋ := Int.floor_nonneg.mpr hq
  have := floor_le_pyRound q
  omega

/-- Python truthiness of an optional float: `None` and `0.0` are falsy. -/
def qTruthy : Option ℚ → Bool
  | none => false
  | some q => if q = 0 then false else true

/-- Python truthiness of an optional int. -/
def iTruthy : Option ℤ → Bool
  | none => false
  | some n => if n = 0 then false else true

/-- Python truthiness of an optional string: `None` and `""` are falsy. -/
def sTruthy : Option String → Bool
  | none => false
  | some s => if s = "" then false else true

@[simp] theorem qTruthy_none : qTruthy none = false := rfl

@[simp] theorem qTruthy_some (q : ℚ) : qTruthy (some q) = if q = 0 then false else true := rfl

@[simp] theorem iTruthy_none : iTruthy none = false := rfl

@[simp] theorem iTruthy_some (n : ℤ) : iTruthy (some n) = if n = 0 then false else true := rfl

@[simp] theorem sTruthy_none : sTruthy none = false := rfl

@[simp] theorem sTruthy_some (s : String) : sTruthy (some s) = if s = "" then false else true := rfl

/-- Python `str.upper()` (ASCII letters suffice for this code base). -/
def upperStr (s : String) : String := ⟨s.data.map Char.toUpper⟩

/-- Python `str.lower()` (ASCII letters suffice for this code base). -/
def lowerStr (s : String) : String := ⟨s.data.map Char.toLower⟩

/-- Python `a or b` for an optional float `a` and fallback `b`. -/
def pyOrQ (a : Option ℚ) (b : ℚ) : ℚ :=
  match a with
  | none => b
  | some q => if q = 0 then b else q

/-- Python `a or b` for an optional string `a` and fallback `b`. -/
def pyOrS (a : Option String) (b : String) : String :=
  match a with
  | none => b
  | some s => if s = "" then b else s

/-!  ## Goal Calculator (`calculate_nutrition_goals`, main.py 459-514)  -/

/-- `ACTIVITY_MULTIPLIERS.get(level, 1.55)` from main.py 451-457 / 482. -/
def activityMultiplier (level : String) : ℚ :=
  if level = "sedentary" then 1.2
  else if level = "light" then 1.375
  else if level = "moderate" then 1.55
  else if level = "active" then 1.725
  else if level = "very_active" then 1.9
  else 1.55

structure NutritionGoals where
  calorie_goal : ℤ
  protein_goal : ℤ
  carbs_goal : ℤ
  fat_goal : ℤ
  tdee : ℤ
  bmr : ℤ
  deriving Repr, DecidableEq

/-- Macro split of `calculate_nutrition_goals` (main.py 495-505): protein at
2 g/kg, fat at 30% of target calories, trim protein if protein+fat exceed the
target, carbs from the remaining calories.  Returns (protein_g, fat_g, carbs_g). -/
def macroSplitOf (target_calories : ℤ) (weight_kg : ℚ) : ℤ × ℤ × ℤ :=
  let protein_g0 : ℤ := pyRound (weight_kg * 2.0)
  let fat_g : ℤ := pyRound (((target_calories : ℚ) * 0.30) / 9)
  let protein_cal0 : ℤ := protein_g0 * 4
  let fat_cal : ℤ := fat_g * 9
  if target_calories < protein_cal0 + fat_cal then
    let protein_cal : ℤ := max 0 (target_calories - fat_cal)
    let protein_g : ℤ := pyRound ((protein_cal : ℚ) / 4)
    let carb_cal : ℤ := max 0 (target_calories - protein_cal - fat_cal)
    (protein_g, fat_g, pyRound ((carb_cal : ℚ) / 4))
  else
    let carb_cal : ℤ := max 0 (target_calories - protein_cal0 - fat_cal)
    (protein_g0, fat_g, pyRound ((carb_cal : ℚ) / 4))

/-- Shallow embedding of `calculate_nutrition_goals` (main.py 459-514). -/
def calculate_nutrition_goals (weight_lbs height_cm : ℚ) (age : ℤ) (sex activity_level goal : String) :
    NutritionGoals :=
  let weight_kg := weight_lbs * 0.453592
  let bmr : ℚ :=
    if upperStr sex = "M" then 10 * weight_kg + 6.25 * height_cm - 5 * age + 5
    else 10 * weight_kg + 6.25 * height_cm - 5 * age - 161
  let tdee := bmr * activityMultiplier activity_level
  let target0 : ℚ :=
    if goal = "lose" then tdee - 500
    else if goal = "gain" then tdee + 300
    else tdee
  let target_calories : ℤ := max 1200 (pyRound target0)
  let m := macroSplitOf target_calories weight_kg
  { calorie_goal := target_calories
    protein_goal := m.1
    carbs_goal := m.2.2
    fat_goal := m.2.1
    tdee := pyRound tdee
    bmr := pyRound bmr }

theorem macroSplitOf_protein_fat_bound (t : ℤ) (kg : ℚ) (ht : 1200 ≤ t) :
    (macroSplitOf t kg).1 * 4 + (macroSplitOf t kg).2.1 * 9 ≤ t + 2 := by
  simp only [macroSplitOf]
  split_ifs with htrim
  · -- trimmed branch: protein grams re-rounded from the reduced allotment
    simp only
    set fg : ℤ := pyRound (((t : ℚ) * 0.30) / 9) with hfg
    have hfat : (fg : ℚ) ≤ (t : ℚ) * 0.30 / 9 + 1/2 := by rw [hfg]; exact pyRound_le _
    rcases le_or_lt 0 (t - fg * 9) with hpos | hneg
    · have hmax : max 0 (t - fg * 9) = t - fg * 9 := max_eq_right hpos
      rw [hmax]
      have hple : (pyRound (((t - fg * 9 : ℤ) : ℚ) / 4) : ℚ) ≤ ((t - fg * 9 : ℤ) : ℚ) / 4 + 1/2 :=
        pyRound_le _
      have : (pyRound (((t - fg * 9 : ℤ) : ℚ) / 4) : ℚ) * 4 + (fg : ℚ) * 9 ≤ (t : ℚ) + 2 := by
        push_cast at hple ⊢
        nlinarith
      exact_mod_cast this
    · have hmax : max 0 (t - fg * 9) = 0 := max_eq_left (by omega)
      rw [hmax]
      have hz : (pyRound (((0 : ℤ) : ℚ) / 4)) = 0 := by
        norm_num [pyRound_zero]
      rw [hz]
      -- only fat remains; 9 * fat_g ≤ 0.3 t + 4.5 ≤ t + 2 because t ≥ 1200
      have hq : (fg : ℚ) * 9 ≤ (t : ℚ) + 2 := by
        have ht' : (1200 : ℚ) ≤ (t : ℚ) := by exact_mod_cast ht
        nlinarith
      have h9 : fg * 9 ≤ t + 2 := by exact_mod_cast hq
      omega
  · -- untouched branch: protein + fat fit inside the target
    simp only
    omega

theorem macroSplitOf_carbs_nonneg (t : ℤ) (kg : ℚ) : 0 ≤ (macroSplitOf t kg).2.2 := by
  simp only [macroSplitOf]
  split_ifs <;>
    · simp only
      apply pyRound_nonneg
      positivity

/-- C7 (counterexample): at weight 264.5 lbs, height 100.1 cm, age 49, female,
sedentary, goal "lose", the initial protein+fat calories exceed the 1203 kcal
target, the trim branch fires, yet the returned protein (211 g) and fat (40 g)
give 211*4 + 40*9 = 1204 kcal > 1203 kcal: re-rounding the trimmed protein
grams can push protein+fat calories back above the calorie goal, refuting the
claim that the returned macros never exceed it. -/
theorem C7_trim_fit_counterexample :
    pyRound (((264.5 : ℚ) * 0.453592) * 2.0) * 4 +
        (calculate_nutrition_goals 264.5 100.1 49 "F" "sedentary" "lose").fat_goal * 9 >
      (calculate_nutrition_goals 264.5 100.1 49 "F" "sedentary" "lose").calorie_goal ∧
    ¬ ((calculate_nutrition_goals 264.5 100.1 49 "F" "sedentary" "lose").protein_goal * 4 +
        (calculate_nutrition_goals 264.5 100.1 49 "F" "sedentary" "lose").fat_goal * 9 ≤
      (calculate_nutrition_goals 264.5 100.1 49 "F" "sedentary" "lose").calorie_goal) := by
  have hsex : upperStr "F" = "F" := by decide
  simp only [calculate_nutrition_goals, macroSplitOf, activityMultiplier, pyRound, hsex]
  simp
  norm_num [Int.fract, max_def, min_def]

/-- C7 (amended): for every input, the returned protein and fat calories can
exceed the calorie goal by at most 2 kcal (the slack introduced by re-rounding
the trimmed protein grams), and the returned carbs goal is never negative. -/
theorem C7_trim_bound (w h : ℚ) (age : ℤ) (sex act goal : String) :
    (calculate_nutrition_goals w h age sex act goal).protein_goal * 4 +
        (calculate_nutrition_goals w h age sex act goal).fat_goal * 9 ≤
      (calculate_nutrition_goals w h age sex act goal).calorie_goal + 2 ∧
    0 ≤ (calculate_nutrition_goals w h age sex act goal).carbs_goal := by
  constructor
  · exact macroSplitOf_protein_fat_bound _ _ (le_max_left _ _)
  · exact macroSplitOf_carbs_nonneg _ _


/-!  ## Workout Energy Estimator (`estimate_workout_calories`, main.py 520-642)  -/

/-- A Python value as it may appear in an exercise dict field: `None`, an int,
or a string.  (The JSON-decoded exercise dicts in this code base carry these.) -/
inductive PVal where
  | pnone : PVal
  | pint : ℤ → PVal
  | pstr : String → PVal
  deriving Repr, DecidableEq

/-- Python truthiness of a `PVal`: `None`, `0` and `""` are falsy. -/
def PVal.truthy : PVal → Bool
  | .pnone => false
  | .pint n => if n = 0 then false else true
  | .pstr s => if s = "" then false else true

/-- Python `a or b` on exercise-dict field values. -/
def pvOr (a b : PVal) : PVal := if a.truthy then a else b

/-- Python `str(v)`. -/
def pvStr : PVal → String
  | .pnone => "None"
  | .pint n => toString n
  | .pstr s => s

/-- Characters Python `str.strip()` removes and `\s` matches. -/
def isPySpace (c : Char) : Bool :=
  if c = ' ' then true else if c = '\t' then true else if c = '\n' then true
  else if c = '\r' then true else if c = '\x0b' then true else if c = '\x0c' then true else false

/-- Python `str.strip()` on a character list. -/
def trimList (l : List Char) : List Char :=
  ((l.dropWhile isPySpace).reverse.dropWhile isPySpace).reverse

/-- Lower-case a character list (ASCII, as in this code base). -/
def lowerList (l : List Char) : List Char := l.map Char.toLower

/-- Python `s.strip().lower()`. -/
def stripLower (s : String) : String := ⟨lowerList (trimList s.data)⟩

/-- The characters the regex class `\d` matches (ASCII digits). -/
def isDigitChar (c : Char) : Bool := c.isDigit

def digitsToNat (ds : List Char) : ℕ :=
  ds.foldl (fun a c => a * 10 + (c.toNat - '0'.toNat)) 0

/-- Python `int(s)` on a string: optional surrounding whitespace, optional
sign, then digits; anything else raises `ValueError`.  (Python also accepts
digit-group underscores; no caller in this code base produces those.) -/
def parseIntStr (s : String) : Option ℤ :=
  match trimList s.data with
  | [] => none
  | c :: rest =>
    let core := if c = '-' ∨ c = '+' then rest else c :: rest
    if core ≠ [] ∧ core.all isDigitChar then
      some (if c = '-' then -(digitsToNat core : ℤ) else (digitsToNat core : ℤ))
    else none

/-- Python `int(v)`: ints pass through, numeric strings parse, everything
else raises (`TypeError` for `None`, `ValueError` for other strings). -/
def pyIntOf : PVal → Except String ℤ
  | .pint n => .ok n
  | .pnone => .error "TypeError: int() argument is None"
  | .pstr s =>
    match parseIntStr s with
    | some n => .ok n
    | none => .error "ValueError: invalid literal for int()"

/-- The regex `(\d+)\s*s(?:ec)?` anchored at the start (main.py 581):
leading digits, optional whitespace, then the letter `s`. -/
def matchTimed (l : List Char) : Option ℕ :=
  let ds := l.takeWhile isDigitChar
  if ds.isEmpty then none
  else
    match (l.dropWhile isDigitChar).dropWhile isPySpace with
    | 's' :: _ => some (digitsToNat ds)
    | _ => none

/-- The regex `(\d+)\s*-\s*(\d+)` anchored at the start (main.py 585):
a rep range, parsed to its midpoint by integer division. -/
def matchRange (l : List Char) : Option ℕ :=
  let ds := l.takeWhile isDigitChar
  if ds.isEmpty then none
  else
    match (l.dropWhile isDigitChar).dropWhile isPySpace with
    | '-' :: rest =>
      let ds2 := (rest.dropWhile isPySpace).takeWhile isDigitChar
      if ds2.isEmpty then none
      else some ((digitsToNat ds + digitsToNat ds2) / 2)
    | _ => none

/-- The regex `(\d+)` anchored at the start (main.py 589). -/
def matchNum (l : List Char) : Option ℕ :=
  let ds := l.takeWhile isDigitChar
  if ds.isEmpty then none else some (digitsToNat ds)

/-- Shallow embedding of `_parse_rep_count` (main.py 577-592). -/
def parse_rep_count (s : String) : ℕ :=
  let t := lowerList (trimList s.data)
  match matchTimed t with
  | some n => n
  | none =>
    match matchRange t with
    | some n => n
    | none =>
      match matchNum t with
      | some n => n
      | none => 10

/-- The module-level `_EXERCISE_MET` dict (main.py 520-572), in source
(= dict insertion) order. -/
def exerciseMET : List (String × ℚ) := [
  ("squat", 6.0), ("back squat", 6.0), ("front squat", 6.0), ("goblet squat", 5.0),
  ("overhead squat", 6.0), ("zercher squat", 5.5), ("deadlift", 6.0), ("romanian deadlift", 5.0),
  ("sumo deadlift", 6.0), ("stiff leg deadlift", 5.0), ("deficit deadlift", 6.5),
  ("trap bar deadlift", 6.0), ("bench press", 5.0), ("incline bench press", 5.0),
  ("decline bench press", 5.0), ("close grip bench press", 5.0), ("floor press", 4.5),
  ("overhead press", 5.0), ("military press", 5.0), ("push press", 5.5), ("strict press", 5.0),
  ("push jerk", 6.0), ("split jerk", 6.0), ("barbell row", 5.0), ("bent over row", 5.0),
  ("pendlay row", 5.0), ("clean", 6.0), ("power clean", 6.0), ("hang clean", 5.5),
  ("squat clean", 6.5), ("clean and jerk", 6.5), ("snatch", 6.5), ("power snatch", 6.0),
  ("hang snatch", 6.0), ("clean pull", 5.5), ("snatch pull", 5.5), ("hip thrust", 5.0),
  ("barbell hip thrust", 5.0), ("good morning", 4.5), ("barbell lunge", 5.5),
  ("barbell step up", 5.0), ("dumbbell bench press", 5.0), ("dumbbell shoulder press", 4.5),
  ("dumbbell row", 4.5), ("dumbbell snatch", 5.5), ("dumbbell thruster", 6.0),
  ("dumbbell curl", 3.5), ("bicep curl", 3.5), ("hammer curl", 3.5), ("tricep pushdown", 3.5),
  ("tricep extension", 3.5), ("skull crusher", 3.5), ("lateral raise", 3.0),
  ("front raise", 3.0), ("rear delt fly", 3.0), ("face pull", 3.0), ("cable fly", 3.5),
  ("chest fly", 3.5), ("dumbbell fly", 3.5), ("cable crossover", 3.5), ("leg curl", 4.0),
  ("leg extension", 4.0), ("calf raise", 3.0), ("leg press", 5.0), ("hack squat", 5.0),
  ("push up", 4.0), ("pushup", 4.0), ("pull up", 5.0), ("pullup", 5.0), ("chin up", 5.0),
  ("dip", 5.0), ("ring dip", 5.5), ("bar muscle up", 7.0), ("ring muscle up", 7.0),
  ("muscle up", 7.0), ("lunge", 5.0), ("walking lunge", 5.0), ("pistol squat", 5.5),
  ("burpee", 8.0), ("mountain climber", 8.0), ("plank", 3.0), ("handstand push up", 5.5),
  ("strict toes to bar", 4.5), ("toes to bar", 5.0), ("knees to elbow", 4.0), ("sit up", 3.5),
  ("ghd sit up", 4.5), ("air squat", 4.0), ("hollow hold", 3.5), ("l-sit", 3.5),
  ("lat pulldown", 4.5), ("seated row", 4.5), ("cable row", 4.5), ("chest press machine", 4.5),
  ("shoulder press machine", 4.0), ("kettlebell swing", 6.0), ("kettlebell clean", 5.5),
  ("kettlebell snatch", 6.0), ("turkish get up", 5.0), ("farmers carry", 5.5),
  ("farmers walk", 5.5), ("sled push", 8.0), ("sled pull", 7.0), ("prowler push", 8.0),
  ("wall ball", 6.5), ("ball slam", 6.0), ("med ball clean", 5.5), ("battle rope", 8.0),
  ("box jump", 7.0), ("box step up", 5.0), ("jumping jack", 7.0), ("jump rope", 8.0),
  ("double under", 9.0), ("rowing", 7.0), ("ski erg", 7.0), ("assault bike", 8.5),
  ("echo bike", 8.5), ("thruster", 6.5), ("barbell thruster", 6.5), ("cluster", 6.5),
  ("sandbag carry", 5.5), ("sandbag clean", 5.5), ("sandbag over shoulder", 6.0),
  ("rope climb", 7.0), ("bear crawl", 7.0), ("broad jump", 6.5), ("devil press", 7.0),
  ("man maker", 7.5), ("run", 8.0), ("sprint", 10.0), ("shuttle run", 8.5)]

/-- The module-level `_DEFAULT_MET` (main.py 573). -/
def defaultMET : ℚ := 4.0

def secondsPerRep : ℚ := 3.5

/-- Does `n` occur at the start of `h`? -/
def listHasPre : List Char → List Char → Bool
  | [], _ => true
  | _ :: _, [] => false
  | c :: cs, d :: ds => if c = d then listHasPre cs ds else false

/-- Python substring test `n in h` on character lists. -/
def containsSub : List Char → List Char → Bool
  | n, [] => n.isEmpty
  | n, c :: t => listHasPre n (c :: t) || containsSub n t

/-- Python `n in h` on strings. -/
def strInStr (n h : String) : Bool := containsSub n.data h.data

/-- Exact-name MET lookup, `_EXERCISE_MET.get(name)` (main.py 624). -/
def metExact (name : String) : Option ℚ :=
  (exerciseMET.find? (fun p => p.1 == name)).map Prod.snd

/-- Substring MET lookup: the first table entry whose key contains the name
or is contained in it (main.py 626-629). -/
def metSub (name : String) : Option ℚ :=
  (exerciseMET.find? (fun p => strInStr p.1 name || strInStr name p.1)).map Prod.snd

/-- The MET resolved for an (already stripped and lower-cased) exercise name:
exact match, then substring match, then the 4.0 default (main.py 623-631). -/
def metFor (name : String) : ℚ :=
  match metExact name with
  | some m => m
  | none =>
    match metSub name with
    | some m => m
    | none => defaultMET

/-- One exercise dict as `estimate_workout_calories` reads it: `reps` is
`none` when the key is missing (its `.get` has default `"10"`), the other
fields read `None` when missing. -/
structure ExDict where
  name : PVal
  sets : PVal
  reps : Option PVal
  rest_seconds : PVal
  deriving Repr, DecidableEq

structure WorkoutEstimate where
  estimated_calories : ℤ
  duration_minutes : ℤ
  deriving Repr, DecidableEq

/-- `(ex.get("name") or "").strip().lower()`: a non-falsy, non-string name
raises `AttributeError` at `.strip()`. -/
def exName (v : PVal) : Except String String :=
  match pvOr v (.pstr "") with
  | .pstr s => .ok (stripLower s)
  | _ => .error "AttributeError: no attribute strip"

/-- One iteration of the loop in `estimate_workout_calories` (main.py
605-636), accumulating (total_seconds, total_calories). -/
def estimateStep (weight_kg : ℚ) (acc : ℚ × ℚ) (ex : ExDict) : Except String (ℚ × ℚ) := do
  let name ← exName ex.name
  let sets ← pyIntOf (pvOr ex.sets (.pint 3))
  let reps_raw := ex.reps.getD (.pstr "10")
  let rest_sec ← pyIntOf (pvOr ex.rest_seconds (.pint 60))
  let rep_count := parse_rep_count (pvStr reps_raw)
  let is_timed := (matchTimed (lowerList (trimList (pvStr reps_raw).data))).isSome
  let work_time_per_set : ℚ := if is_timed then rep_count else rep_count * secondsPerRep
  let exercise_duration_sec : ℚ := sets * (work_time_per_set + rest_sec)
  let met := metFor name
  let duration_min := exercise_duration_sec / 60
  let cals := met * 3.5 * weight_kg / 200 * duration_min
  return (acc.1 + exercise_duration_sec, acc.2 + cals)

/-- Shallow embedding of `estimate_workout_calories` (main.py 595-642).
A raised exception is the `Except.error` case. -/
def estimate_workout_calories (exercises : List ExDict) (weight_kg : ℚ) :
    Except String WorkoutEstimate := do
  let acc ← exercises.foldlM (estimateStep weight_kg) ((0 : ℚ), (0 : ℚ))
  return { estimated_calories := max 1 (pyRound acc.2), duration_minutes := pyRound (acc.1 / 60) }

/-- The substring-matched table key, for stating which family a name
resolved to (main.py 626-629). -/
def metSubKey (name : String) : Option String :=
  (exerciseMET.find? (fun p => strInStr p.1 name || strInStr name p.1)).map Prod.fst

/-- C9: the MET lookup of `estimate_workout_calories` resolves
"Unknown Super Exercise" (no exact and no substring match) to the 4.0
default, "Back Squat" to 6.0 by case-insensitive exact match, and
"squat variation" by substring match to the squat family entry (MET 6.0). -/
theorem C9_met_lookup :
    metExact (stripLower "Unknown Super Exercise") = none ∧
    metSub (stripLower "Unknown Super Exercise") = none ∧
    metFor (stripLower "Unknown Super Exercise") = 4.0 ∧
    metExact (stripLower "Back Squat") = some 6.0 ∧
    metFor (stripLower "Back Squat") = 6.0 ∧
    metExact (stripLower "squat variation") = none ∧
    metSubKey (stripLower "squat variation") = some "squat" ∧
    metFor (stripLower "squat variation") = 6.0 := by
  exact ⟨rfl, rfl, rfl, rfl, rfl, rfl, rfl, rfl⟩

/-- A name value `estimate_workout_calories` can read without raising:
missing (`None`) or a string.  A truthy non-string raises `AttributeError`
at `.strip()`. -/
def nameSafe (v : PVal) : Prop := v = .pnone ∨ ∃ s, v = .pstr s

/-- A field value Python's `int()` accepts. -/
def intConvertible (v : PVal) : Prop := ∃ n, pyIntOf v = .ok n

theorem exName_ok (v : PVal) (hv : nameSafe v) : ∃ s, exName v = .ok s := by
  rcases hv with h | ⟨s, h⟩
  · subst h
    exact ⟨stripLower "", rfl⟩
  · subst h
    by_cases hs : s = ""
    · subst hs
      exact ⟨stripLower "", rfl⟩
    · refine ⟨stripLower s, ?_⟩
      simp [exName, pvOr, PVal.truthy, hs]

theorem estimateStep_ok (kg : ℚ) (acc : ℚ × ℚ) (ex : ExDict)
    (hname : nameSafe ex.name)
    (hsets : intConvertible (pvOr ex.sets (.pint 3)))
    (hrest : intConvertible (pvOr ex.rest_seconds (.pint 60))) :
    ∃ p, estimateStep kg acc ex = .ok p := by
  obtain ⟨s, hs⟩ := exName_ok ex.name hname
  obtain ⟨ns, hns⟩ := hsets
  obtain ⟨nr, hnr⟩ := hrest
  unfold estimateStep
  rw [hs, hns, hnr]
  exact ⟨_, rfl⟩

theorem foldlM_estimate_ok (kg : ℚ) (exs : List ExDict)
    (h : ∀ ex ∈ exs, nameSafe ex.name ∧ intConvertible (pvOr ex.sets (.pint 3)) ∧
      intConvertible (pvOr ex.rest_seconds (.pint 60))) :
    ∀ acc : ℚ × ℚ, ∃ p, exs.foldlM (estimateStep kg) acc = .ok p := by
  induction exs with
  | nil => intro acc; exact ⟨acc, rfl⟩
  | cons ex rest ih =>
    intro acc
    obtain ⟨hname, hsets, hrest⟩ := h ex (List.mem_cons_self ex rest)
    obtain ⟨p, hp⟩ := estimateStep_ok kg acc ex hname hsets hrest
    obtain ⟨q, hq⟩ := ih (fun e he => h e (List.mem_cons_of_mem ex he)) p
    refine ⟨q, ?_⟩
    rw [List.foldlM_cons, hp]
    exact hq

/-- C8 (counterexample): an exercise dict whose `sets` field is the truthy
non-numeric string "abc" makes `estimate_workout_calories` raise
(`int("abc")` is a `ValueError`), so the function is not total on arbitrary
exercise dicts. -/
theorem C8_estimate_raises_counterexample :
    (estimate_workout_calories
        [{ name := .pstr "mystery", sets := .pstr "abc", reps := none, rest_seconds := .pnone }]
        70).isOk = false := by
  rfl

/-- C8 (amended): `estimate_workout_calories` returns a result without
raising whenever every exercise dict has a missing-or-string `name` and
`sets` / `rest_seconds` values that `int()` accepts after the falsy
defaults (3 and 60) are applied; `reps` may be anything.  (Missing and
falsy fields default safely, but a truthy non-numeric `sets` or
`rest_seconds` raises, so totality needs this hypothesis.) -/
theorem C8_estimate_total (exs : List ExDict) (kg : ℚ)
    (h : ∀ ex ∈ exs, nameSafe ex.name ∧ intConvertible (pvOr ex.sets (.pint 3)) ∧
      intConvertible (pvOr ex.rest_seconds (.pint 60))) :
    ∃ r, estimate_workout_calories exs kg = .ok r := by
  obtain ⟨p, hp⟩ := foldlM_estimate_ok kg exs h (0, 0)
  unfold estimate_workout_calories
  rw [hp]
  exact ⟨_, rfl⟩

/-- C8 witness: a fully populated exercise (range reps) satisfies the
hypotheses, so the estimator returns a value at a concrete input. -/
theorem C8_estimate_total_witness :
    ∃ r, estimate_workout_calories
        [{ name := .pstr "Back Squat", sets := .pint 5, reps := some (.pstr "8-12"),
           rest_seconds := .pint 90 }] 80 = .ok r :=
  C8_estimate_total _ 80 (by
    intro ex hex
    simp only [List.mem_singleton] at hex
    subst hex
    refine ⟨Or.inr ⟨"Back Squat", rfl⟩, ⟨5, rfl⟩, ⟨90, rfl⟩⟩)

/-!  ## Weight Trend Analyzer (`_compute_window_delta`, main.py 823-844, and
the multi-window blend in `run_recalibration`, main.py 921-1009)  -/

/-- A weight entry: `timestamp` in days since an epoch whose day 0 is a
Monday (fractional part = time of day), `weight_lbs` the recorded weight. -/
structure WEntry where
  timestamp : ℚ
  weight_lbs : ℚ
  deriving Repr, DecidableEq

instance : Inhabited WEntry := ⟨⟨0, 0⟩⟩

/-- Stable insertion keeping earlier-listed entries first among equal
timestamps, as Python's stable `sorted(..., key=lambda w: w.timestamp)`. -/
def insertByTime (x : WEntry) : List WEntry → List WEntry
  | [] => [x]
  | y :: ys => if x.timestamp < y.timestamp then x :: y :: ys else y :: insertByTime x ys

def sortByTime (l : List WEntry) : List WEntry :=
  l.foldl (fun acc x => insertByTime x acc) []

/-- Sample variance (`statistics.stdev` squared); `stdev > 2.0` is stated
below as `variance > 4`, an exact rephrasing. -/
def sampleVariance (ws : List ℚ) : ℚ :=
  ((ws.map fun w => (w - ws.sum / ws.length) ^ 2).sum) / ((ws.length : ℚ) - 1)

structure WindowDelta where
  delta_per_week : ℚ
  is_noisy : Bool
  days_span : ℤ
  n_entries : ℕ
  deriving Repr, DecidableEq

instance : Inhabited WindowDelta := ⟨⟨0, false, 0, 0⟩⟩

/-- Shallow embedding of `_compute_window_delta` (main.py 823-844).
`timedelta.days` is the floor of the day difference. -/
def compute_window_delta (entries : List WEntry) (min_entries : ℕ) (check_noise : Bool) :
    Option WindowDelta :=
  if entries.isEmpty ∨ entries.length < min_entries then none
  else
    let sorted_w := sortByTime entries
    let first := sorted_w.headD default
    let last := sorted_w.getLastD default
    let days_span : ℤ := max ⌊last.timestamp - first.timestamp⌋ 1
    let delta_per_week : ℚ := (last.weight_lbs - first.weight_lbs) * 7 / (days_span : ℚ)
    let is_noisy : Bool :=
      if check_noise then
        if 2 ≤ sorted_w.length then
          if 4 < sampleVariance (sorted_w.map WEntry.weight_lbs) then true else false
        else false
      else false
    some ⟨delta_per_week, is_noisy, days_span, sorted_w.length⟩

structure ActiveWindow where
  label : String
  res : WindowDelta
  base_weight : ℚ
  deriving Repr, DecidableEq

instance : Inhabited ActiveWindow := ⟨⟨"", default, 0⟩⟩

/-- The `_window_config` list (main.py 932-937). -/
def windowConfig (w7 w30 w60 w90 : Option WindowDelta) :
    List (String × Option WindowDelta × ℚ) :=
  [("7d", w7, 0.15), ("30d", w30, 0.50), ("60d", w60, 0.25), ("90d", w90, 0.10)]

/-- The loop building `active_windows` (main.py 939-945): unavailable
windows and a noisy 7d window are excluded. -/
def activeWindows (w7 w30 w60 w90 : Option WindowDelta) : List ActiveWindow :=
  (windowConfig w7 w30 w60 w90).foldl
    (fun acc lrb =>
      match lrb.2.1 with
      | none => acc
      | some res =>
        if lrb.1 = "7d" ∧ res.is_noisy = true then acc
        else acc ++ [⟨lrb.1, res, lrb.2.2⟩]) []

structure BlendOut where
  weight_delta : Option ℚ
  signal_used : String
  deriving Repr, DecidableEq

/-- The weighted blend and `signal_used` assignment (main.py 962-977):
base weights of the active windows are renormalized and the deltas combined;
`signal_used` stays `"calories_only"` when no window is active. -/
def blendTrend (w7 w30 w60 w90 : Option WindowDelta) : BlendOut :=
  let aw := activeWindows w7 w30 w60 w90
  if aw.isEmpty then ⟨none, "calories_only"⟩
  else
    let total_raw_weight := (aw.map ActiveWindow.base_weight).sum
    let delta := (aw.map fun a => a.res.delta_per_week * (a.base_weight / total_raw_weight)).sum
    ⟨some delta,
      if 2 ≤ aw.length then "multi_window"
      else if aw.length = 1 then "weight_" ++ (aw.headD default).label
      else "calories_only"⟩

/-- The trend classification chain (main.py 980-1009). -/
def classifyTrend (goal_type : String) (weight_delta : ℚ) : String :=
  if goal_type = "lose" then
    if -2 ≤ weight_delta ∧ weight_delta ≤ -0.5 then "on_track"
    else if weight_delta < -2 then "too_fast"
    else if -0.5 < weight_delta ∧ weight_delta ≤ 0 then "too_slow"
    else "wrong_direction"
  else if goal_type = "gain" then
    if 0.25 ≤ weight_delta ∧ weight_delta ≤ 1.0 then "on_track"
    else if 1.0 < weight_delta then "too_fast"
    else if 0 < weight_delta ∧ weight_delta < 0.25 then "too_slow"
    else "wrong_direction"
  else
    if |weight_delta| < 0.5 then "on_track"
    else if weight_delta < -1 then "too_fast"
    else if 1 < weight_delta then "too_slow"
    else "on_track"

/-- `weight_trend_signal`: the classification when the blended delta is
known, `"no_data"` otherwise (main.py 921-922, 979-1009). -/
def weightTrendSignal (goal_type : String) : Option ℚ → String
  | none => "no_data"
  | some d => classifyTrend goal_type d

/-- C3: for every known blended delta the classification matches the spec's
matrix exactly, per goal type; maintain never yields wrong_direction. -/
theorem C3_trend_classification (d : ℚ) :
    (classifyTrend "lose" d = "too_fast" ↔ d < -2) ∧
    (classifyTrend "lose" d = "on_track" ↔ -2 ≤ d ∧ d ≤ -0.5) ∧
    (classifyTrend "lose" d = "too_slow" ↔ -0.5 < d ∧ d ≤ 0) ∧
    (classifyTrend "lose" d = "wrong_direction" ↔ 0 < d) ∧
    (classifyTrend "gain" d = "too_fast" ↔ 1 < d) ∧
    (classifyTrend "gain" d = "on_track" ↔ 0.25 ≤ d ∧ d ≤ 1) ∧
    (classifyTrend "gain" d = "too_slow" ↔ 0 < d ∧ d < 0.25) ∧
    (classifyTrend "gain" d = "wrong_direction" ↔ d ≤ 0) ∧
    (classifyTrend "maintain" d = "too_fast" ↔ d < -1) ∧
    (classifyTrend "maintain" d = "too_slow" ↔ 1 < d) ∧
    (classifyTrend "maintain" d = "on_track" ↔ -1 ≤ d ∧ d ≤ 1) ∧
    (classifyTrend "maintain" d ≠ "wrong_direction") := by
  unfold classifyTrend
  norm_num [abs_lt]
  refine ⟨?_, ?_, ?_, ?_, ?_, ?_, ?_, ?_, ?_, ?_, ?_, ?_⟩ <;>
    · split_ifs <;> simp_all <;>
        first
          | linarith
          | (constructor <;> linarith)
          | (intro h; linarith)

theorem sum_mul_div (l : List ActiveWindow) (T : ℚ) :
    (l.map fun a => a.res.delta_per_week * (a.base_weight / T)).sum =
      (l.map fun a => a.res.delta_per_week * a.base_weight).sum / T := by
  induction l with
  | nil => simp
  | cons a t ih =>
    simp only [List.map_cons, List.sum_cons, ih, add_div]
    ring_nf

theorem blendTrend_weight_delta (w7 w30 w60 w90 : Option WindowDelta) :
    (blendTrend w7 w30 w60 w90).weight_delta =
      (if activeWindows w7 w30 w60 w90 = [] then none
       else some
        (((activeWindows w7 w30 w60 w90).map fun a => a.res.delta_per_week * a.base_weight).sum /
          ((activeWindows w7 w30 w60 w90).map ActiveWindow.base_weight).sum)) := by
  unfold blendTrend
  by_cases h : activeWindows w7 w30 w60 w90 = []
  · simp [h]
  · simp only [h, if_false, List.isEmpty_iff, if_neg h]
    rw [sum_mul_div]

theorem blendTrend_signal (w7 w30 w60 w90 : Option WindowDelta) :
    (blendTrend w7 w30 w60 w90).signal_used =
      (if 2 ≤ (activeWindows w7 w30 w60 w90).length then "multi_window"
       else if (activeWindows w7 w30 w60 w90).length = 1 then
         "weight_" ++ ((activeWindows w7 w30 w60 w90).headD default).label
       else "calories_only") := by
  unfold blendTrend
  by_cases h : activeWindows w7 w30 w60 w90 = []
  · simp [h]
  · simp [h, List.isEmpty_iff]

/-- The windows the spec says contribute to the blend, with their labels,
deltas and base weights.  Modelled from the claim's words (available = the
window yielded a result and, for 7d, is not noisy). -/
def specAvailable (w7 w30 w60 w90 : Option WindowDelta) : List (String × ℚ × ℚ) :=
  (match w7 with
   | some r => if r.is_noisy then [] else [("7d", r.delta_per_week, 0.15)]
   | none => []) ++
  (match w30 with | some r => [("30d", r.delta_per_week, 0.50)] | none => []) ++
  (match w60 with | some r => [("60d", r.delta_per_week, 0.25)] | none => []) ++
  (match w90 with | some r => [("90d", r.delta_per_week, 0.10)] | none => [])

theorem activeWindows_eq_specAvailable (w7 w30 w60 w90 : Option WindowDelta) :
    (activeWindows w7 w30 w60 w90).map
        (fun a => (a.label, a.res.delta_per_week, a.base_weight)) =
      specAvailable w7 w30 w60 w90 := by
  rcases w7 with _ | ⟨d7, _ | _, s7, e7⟩ <;>
    rcases w30 with _ | ⟨d30, n30, s30, e30⟩ <;>
    rcases w60 with _ | ⟨d60, n60, s60, e60⟩ <;>
    rcases w90 with _ | ⟨d90, n90, s90, e90⟩ <;>
    rfl

/-- C4: for every four window lists, the blended trend uses exactly the
windows that yield a result under the 2/3/4/5 entry minima, minus a noisy
7-day window; the blended delta is the base-weight-renormalized weighted
average of the available deltas, and `signal_used` is "multi_window" for two
or more contributing windows, "weight_<w>" for exactly one, and
"calories_only" (with no trend, classified "no_data") for none. -/
theorem C4_window_blend (e7 e30 e60 e90 : List WEntry) :
    (blendTrend (compute_window_delta e7 2 true) (compute_window_delta e30 3 false)
          (compute_window_delta e60 4 false) (compute_window_delta e90 5 false)).weight_delta =
      (if specAvailable (compute_window_delta e7 2 true) (compute_window_delta e30 3 false)
            (compute_window_delta e60 4 false) (compute_window_delta e90 5 false) = [] then none
       else some
        (((specAvailable (compute_window_delta e7 2 true) (compute_window_delta e30 3 false)
                (compute_window_delta e60 4 false) (compute_window_delta e90 5 false)).map
              fun p => p.2.1 * p.2.2).sum /
          ((specAvailable (compute_window_delta e7 2 true) (compute_window_delta e30 3 false)
                (compute_window_delta e60 4 false) (compute_window_delta e90 5 false)).map
              fun p => p.2.2).sum)) ∧
    (blendTrend (compute_window_delta e7 2 true) (compute_window_delta e30 3 false)
          (compute_window_delta e60 4 false) (compute_window_delta e90 5 false)).signal_used =
      (if 2 ≤ (specAvailable (compute_window_delta e7 2 true) (compute_window_delta e30 3 false)
            (compute_window_delta e60 4 false) (compute_window_delta e90 5 false)).length then
        "multi_window"
       else if (specAvailable (compute_window_delta e7 2 true) (compute_window_delta e30 3 false)
            (compute_window_delta e60 4 false) (compute_window_delta e90 5 false)).length = 1 then
        "weight_" ++ ((specAvailable (compute_window_delta e7 2 true)
            (compute_window_delta e30 3 false) (compute_window_delta e60 4 false)
            (compute_window_delta e90 5 false)).headD ("", 0, 0)).1
       else "calories_only") ∧
    (∀ g : String, weightTrendSignal g none = "no_data") := by
  set w7 := compute_window_delta e7 2 true
  set w30 := compute_window_delta e30 3 false
  set w60 := compute_window_delta e60 4 false
  set w90 := compute_window_delta e90 5 false
  have hmap := activeWindows_eq_specAvailable w7 w30 w60 w90
  have hnil : (specAvailable w7 w30 w60 w90 = []) ↔ (activeWindows w7 w30 w60 w90 = []) := by
    rw [← hmap, List.map_eq_nil_iff]
  have hlen : (specAvailable w7 w30 w60 w90).length = (activeWindows w7 w30 w60 w90).length := by
    rw [← hmap, List.length_map]
  have hsum1 : ((specAvailable w7 w30 w60 w90).map fun p => p.2.1 * p.2.2).sum =
      ((activeWindows w7 w30 w60 w90).map fun a => a.res.delta_per_week * a.base_weight).sum := by
    rw [← hmap, List.map_map]
    rfl
  have hsum2 : ((specAvailable w7 w30 w60 w90).map fun p => p.2.2).sum =
      ((activeWindows w7 w30 w60 w90).map ActiveWindow.base_weight).sum := by
    rw [← hmap, List.map_map]
    rfl
  refine ⟨?_, ?_, fun g => rfl⟩
  · rw [blendTrend_weight_delta, hsum1, hsum2]
    by_cases h : activeWindows w7 w30 w60 w90 = []
    · rw [if_pos h, if_pos (hnil.mpr h)]
    · rw [if_neg h, if_neg (fun hc => h (hnil.mp hc))]
  · rw [blendTrend_signal, hlen]
    by_cases h2 : 2 ≤ (activeWindows w7 w30 w60 w90).length
    · rw [if_pos h2, if_pos h2]
    · rw [if_neg h2, if_neg h2]
      by_cases h1 : (activeWindows w7 w30 w60 w90).length = 1
      · rw [if_pos h1, if_pos h1]
        congr 1
        match hw : activeWindows w7 w30 w60 w90, h1 with
        | [a], _ => rw [← hmap, hw]; rfl
      · rw [if_neg h1, if_neg h1]

/-!  ## Recalibration Engine (`run_recalibration`, main.py 850-1498)

The engine is embedded stage by stage, each stage a contiguous block of the
Python function; `run_recalibration` composes them.  The narrative reasoning
strings and insight dicts are represented by tagged constructors carrying the
numeric template arguments (one constructor per f-string template in the
source); the `db` handle is represented by the one datum its queries provide
(the 7-day `BurnLog` calorie sum) and the one write it receives (the
`learned_neat` update, returned as `learned_neat_write`). -/

/-- A food log entry as the engine reads it: `day` stands for the
`strftime("%Y-%m-%d")` calendar day (counted so that day 0 is a Monday and
`weekday = day % 7`), nutrition fields may be NULL. -/
structure FLog where
  day : ℤ
  calories : Option ℚ
  protein : Option ℚ
  carbs : Option ℚ
  fat : Option ℚ
  deriving Repr, DecidableEq

structure PSession where
  is_completed : Bool
  exercises_json : Option (List ExDict)
  deriving Repr, DecidableEq

structure HMetric where
  total_expenditure : Option ℚ
  deriving Repr, DecidableEq

structure PyUser where
  goal_type : Option String
  learned_neat : Option ℚ
  height_cm : Option ℚ
  age : Option ℤ
  sex : Option String
  activity_level : Option String
  deriving Repr, DecidableEq

structure Goals where
  calorie_goal : ℤ
  protein_goal : ℤ
  carbs_goal : ℤ
  fat_goal : ℤ
  deriving Repr, DecidableEq

/-- The distinct `strftime` day keys of the `daily` defaultdict, in first
appearance order (main.py 885-893). -/
def distinctDays (logs : List FLog) : List ℤ :=
  logs.foldl (fun acc l => if l.day ∈ acc then acc else acc ++ [l.day]) []

/-- Sum a nutrition field over logs with `or 0` for NULLs; summing the
per-day dict values equals summing over all logs. -/
def sumBy (logs : List FLog) (f : FLog → Option ℚ) : ℚ :=
  (logs.map fun l => (f l).getD 0).sum

def isWeekendLog (l : FLog) : Bool := if 5 ≤ l.day % 7 then true else false

structure IntakeStats where
  days_logged : ℕ
  avg_cal : ℚ
  avg_pro : ℚ
  weekend_pro_avg : ℚ
  weekday_pro_avg : ℚ
  n_weekend_days : ℕ
  deriving Repr, DecidableEq

/-- Intake aggregation (main.py 885-915): per-day totals, averages over
days with at least one log, and the weekend/weekday protein split. -/
def intakeStats (food_logs : List FLog) : IntakeStats :=
  let days_logged := (distinctDays food_logs).length
  let avg_cal := sumBy food_logs FLog.calories / ((max days_logged 1 : ℕ) : ℚ)
  let avg_pro := sumBy food_logs FLog.protein / ((max days_logged 1 : ℕ) : ℚ)
  let weekend_days := food_logs.filter isWeekendLog
  let weekday_days := food_logs.filter fun l => ! isWeekendLog l
  let weekend_pro_avg :=
    sumBy weekend_days FLog.protein / ((max (distinctDays weekend_days).length 1 : ℕ) : ℚ)
  let weekday_pro_avg :=
    sumBy weekday_days FLog.protein / ((max (distinctDays weekday_days).length 1 : ℕ) : ℚ)
  ⟨days_logged, avg_cal, avg_pro, weekend_pro_avg, weekday_pro_avg,
    (distinctDays weekend_days).length⟩

/-- `latest_weight_lbs` (main.py 1022-1026). -/
def latestWeight (weight_entries weight_entries_30d : List WEntry) : Option ℚ :=
  if weight_entries ≠ [] then some ((sortByTime weight_entries).getLastD default).weight_lbs
  else if weight_entries_30d ≠ [] then
    some ((sortByTime weight_entries_30d).getLastD default).weight_lbs
  else none

/-- All anthropometrics and a latest weight are truthy (main.py 1030, 1126). -/
def anthroOk (u : PyUser) (lw : Option ℚ) : Bool :=
  qTruthy u.height_cm && iTruthy u.age && sTruthy u.sex && sTruthy u.activity_level && qTruthy lw

structure ExpBase where
  neat_estimate : Option ℚ
  estimated_tdee : Option ℤ
  deriving Repr, DecidableEq

/-- NEAT baseline (main.py 1028-1040): the learned value when truthy, else
the Mifflin-St Jeor maintenance TDEE when anthropometrics allow. -/
def neatBaseline (u : PyUser) (lw : Option ℚ) : ExpBase :=
  if qTruthy u.learned_neat then ⟨u.learned_neat, none⟩
  else if anthroOk u lw then
    let est := calculate_nutrition_goals (lw.getD 0) (u.height_cm.getD 0) (u.age.getD 0)
      (u.sex.getD "") (u.activity_level.getD "") "maintain"
    ⟨some (est.tdee : ℚ), some est.tdee⟩
  else ⟨none, none⟩

/-- The plan-session fallback for workout calories (main.py 1063-1077):
re-estimate completed sessions with stored exercises; a session whose JSON
is NULL/empty/unparseable or whose estimation raises is skipped. -/
def planWorkoutCal (plan_sessions : List PSession) (lw : Option ℚ) : ℚ :=
  if plan_sessions ≠ [] ∧ qTruthy lw = true then
    let weight_kg := lw.getD 0 * 0.453592
    let tc := plan_sessions.foldl
      (fun acc sess =>
        if sess.is_completed then
          match sess.exercises_json with
          | some exs =>
            match estimate_workout_calories exs weight_kg with
            | .ok r => (acc.1 + (r.estimated_calories : ℚ), acc.2 + 1)
            | .error _ => acc
          | none => acc
        else acc) ((0 : ℚ), (0 : ℕ))
    if 0 < tc.2 then tc.1 / 7 else 0
  else 0

/-- `avg_workout_cal` and `_used_burn_logs` (main.py 1042-1077): `db` is
modelled by the 7-day BurnLog sum its query returns. -/
def avgWorkoutCal (db : Option ℚ) (plan_sessions : List PSession) (lw : Option ℚ) : ℚ × Bool :=
  match db with
  | some burn_total =>
    if 0 < burn_total then (burn_total / 7, true)
    else (planWorkoutCal plan_sessions lw, false)
  | none => (planWorkoutCal plan_sessions lw, false)

/-- `avg_expenditure` from device metrics (main.py 1080-1087): available
when at least 3 non-NULL `total_expenditure` values exist. -/
def expFromMetrics (health_metrics : List HMetric) : Option ℚ :=
  let vals := health_metrics.filterMap HMetric.total_expenditure
  if 3 ≤ vals.length then some (vals.sum / (vals.length : ℚ)) else none

/-- `calories_out` before NEAT learning (main.py 1086-1091). -/
def caloriesOut0 (avg_exp : Option ℚ) (neat0 : Option ℚ) (avg_workout_cal : ℚ) : Option ℚ :=
  match avg_exp with
  | some v => some v
  | none => if qTruthy neat0 then some (neat0.getD 0 + avg_workout_cal) else none

structure NeatLearn where
  neat_estimate : Option ℚ
  calories_out : Option ℚ
  learned_neat_write : Option ℚ
  learned : Bool
  deriving Repr, DecidableEq

/-- NEAT learning (main.py 1094-1123).  `learned` records that the inner
(smoothing) branch ran; the persisted value is `learned_neat_write` (only
with a db handle, rounded to one decimal). -/
def learnNeat (u : PyUser) (hasDb : Bool) (weight_delta : Option ℚ) (avg_cal : ℚ)
    (days_logged : ℕ) (signal_used : String) (neat0 calories_out0 : Option ℚ)
    (has_real : Bool) (avg_workout_cal : ℚ) : NeatLearn :=
  match weight_delta with
  | some wd =>
    if 0 < avg_cal ∧ 5 ≤ days_logged ∧
        (signal_used = "weight_7d" ∨ signal_used = "weight_30d" ∨ signal_used = "multi_window") then
      let calculated_neat := avg_cal - wd / 7 * 3500
      if 800 < calculated_neat then
        let previous_neat :=
          if qTruthy u.learned_neat then u.learned_neat.getD 0 else pyOrQ neat0 calculated_neat
        let new_learned_neat := 0.7 * previous_neat + 0.3 * calculated_neat
        ⟨some new_learned_neat,
          if has_real = false then some (new_learned_neat + avg_workout_cal) else calories_out0,
          if hasDb then some (roundTo1 new_learned_neat) else none,
          true⟩
      else ⟨neat0, calories_out0, none, false⟩
    else ⟨neat0, calories_out0, none, false⟩
  | none => ⟨neat0, calories_out0, none, false⟩

/-- The second-chance `estimated_tdee` computation (main.py 1126-1135). -/
def estimatedTdee2 (u : PyUser) (lw : Option ℚ) (et0 : Option ℤ) : Option ℤ :=
  match et0 with
  | some t => some t
  | none =>
    if anthroOk u lw then
      some (calculate_nutrition_goals (lw.getD 0) (u.height_cm.getD 0) (u.age.getD 0)
        (u.sex.getD "") (u.activity_level.getD "") "maintain").tdee
    else none

/-- `expenditure_vs_estimate` (main.py 1137-1138): both values truthy. -/
def expVsEstimate (avg_exp : Option ℚ) (et : Option ℤ) : Option ℚ :=
  if qTruthy avg_exp = true ∧ iTruthy et = true then some (avg_exp.getD 0 - (et.getD 0 : ℚ))
  else none

/-- Energy-balance cross-check (main.py 1143-1159): (net_balance, agrees). -/
def crossCheck (goal_type : String) (calories_out : Option ℚ) (avg_cal : ℚ)
    (weight_delta : Option ℚ) : Option ℚ × Option Bool :=
  if qTruthy calories_out = true ∧ 0 < avg_cal then
    let nb := avg_cal - calories_out.getD 0
    match weight_delta with
    | some wd =>
      (some nb,
        some
          (if goal_type = "lose" then (if nb < 0 ∧ wd < 0 then true else false)
           else if goal_type = "gain" then (if 0 < nb ∧ 0 < wd then true else false)
           else (if |nb| < 300 ∧ |wd| < 1.0 then true else false)))
    | none => (some nb, none)
  else (none, none)

/-- Workout adherence (main.py 1164-1166). -/
def workoutAdherence (plan_sessions : List PSession) : ℚ :=
  ((plan_sessions.filter PSession.is_completed).length : ℚ) /
    ((max plan_sessions.length 1 : ℕ) : ℚ)

/-- `weekend_protein_dip` (main.py 1172-1176). -/
def weekendDip (s : IntakeStats) : Bool :=
  if 0 < s.weekday_pro_avg ∧ 0 < s.n_weekend_days ∧ s.weekend_pro_avg < s.weekday_pro_avg * 0.75
  then true else false

/-- `consistent_under` (main.py 1180). -/
def consistentUnder (prev_cal : ℤ) (avg_cal : ℚ) (days_logged : ℕ) : Bool :=
  if prev_cal ≠ 0 ∧ avg_cal < prev_cal * 0.80 ∧ 5 ≤ days_logged then true else false

/-- `consistent_over` (main.py 1181). -/
def consistentOver (prev_cal : ℤ) (avg_cal : ℚ) (days_logged : ℕ) : Bool :=
  if prev_cal ≠ 0 ∧ prev_cal * 1.15 < avg_cal ∧ 5 ≤ days_logged then true else false

/-- One constructor per reasoning f-string template of main.py 1196-1464,
carrying the numeric arguments the template renders. -/
inductive Reason where
  | loseTooFast (delta : ℚ)
  | loseOnTrack (delta : ℚ)
  | loseTooSlowTrim (delta : ℚ)
  | loseTooSlowHold (delta : ℚ)
  | loseWrongTrim (delta : ℚ)
  | loseWrongHold (delta : ℚ)
  | gainOnTrack (delta : ℚ)
  | gainTooSlow (delta : ℚ)
  | gainTooFast (delta : ℚ)
  | gainWrong (delta : ℚ)
  | maintainOnTrack (delta : ℚ)
  | maintainTooFast (delta : ℚ)
  | maintainTooSlow (delta : ℚ)
  | noWeightData
  | expHigher (avg_exp : ℚ) (tdee : ℤ)
  | expLower (avg_exp : ℚ) (tdee : ℤ)
  | weekendProteinDip (wkend wkday : ℚ)
  | lowAdherence (completed total : ℕ)
  | consistentOverEating (avg : ℚ) (prev : ℤ)
  | defaultNoChanges
  deriving Repr, DecidableEq

/-- One constructor per insight dict template of main.py 1196-1458. -/
inductive Insight where
  | warnLosingTooFast (delta : ℚ)
  | achvLoseOnTrack (delta : ℚ)
  | achvGainOnTrack (delta : ℚ)
  | warnGainTooFast (delta : ℚ)
  | achvMaintain
  | tipWeighIn
  | achvBalanceAgree
  | patBalanceDisagree
  | patHigherActivity (gap : ℚ)
  | patLowerActivity (gap : ℚ)
  | patWeekendDip (wkend wkday : ℚ)
  | warnFewerWorkouts (completed total : ℕ)
  | achvWorkoutConsistency (completed total : ℕ) (adherence : ℚ)
  | achvConsistentLogging (days : ℕ)
  | tipAlmostFull (days : ℕ)
  deriving Repr, DecidableEq

/-- The `type` field of each insight dict. -/
def Insight.itype : Insight → String
  | .warnLosingTooFast _ => "warning"
  | .achvLoseOnTrack _ => "achievement"
  | .achvGainOnTrack _ => "achievement"
  | .warnGainTooFast _ => "warning"
  | .achvMaintain => "achievement"
  | .tipWeighIn => "tip"
  | .achvBalanceAgree => "achievement"
  | .patBalanceDisagree => "pattern"
  | .patHigherActivity _ => "pattern"
  | .patLowerActivity _ => "pattern"
  | .patWeekendDip _ _ => "pattern"
  | .warnFewerWorkouts _ _ => "warning"
  | .achvWorkoutConsistency _ _ _ => "achievement"
  | .achvConsistentLogging _ => "achievement"
  | .tipAlmostFull _ => "tip"

/-- The weight-trend-driven adjustment chain (main.py 1196-1326): the new
calorie value with the reasoning and insights the branch appends. -/
def weightAdjust (goal_type : String) (weight_delta : Option ℚ) (signal : String)
    (agrees : Option Bool) (net_balance : Option ℚ) (cal : ℚ) :
    ℚ × List Reason × List Insight :=
  match weight_delta with
  | none => (cal, [.noWeightData], [.tipWeighIn])
  | some wd =>
    if goal_type = "lose" then
      if signal = "too_fast" then (cal * 1.05, [.loseTooFast wd], [.warnLosingTooFast wd])
      else if signal = "on_track" then (cal, [.loseOnTrack wd], [.achvLoseOnTrack wd])
      else if signal = "too_slow" then
        if agrees = some false then (cal * 0.97, [.loseTooSlowTrim wd], [])
        else (cal, [.loseTooSlowHold wd], [])
      else if signal = "wrong_direction" then
        if agrees = some false ∧ net_balance ≠ none ∧ 0 < net_balance.getD 0 then
          (cal * 0.95, [.loseWrongTrim wd], [])
        else (cal, [.loseWrongHold wd], [])
      else (cal, [], [])
    else if goal_type = "gain" then
      if signal = "on_track" then (cal, [.gainOnTrack wd], [.achvGainOnTrack wd])
      else if signal = "too_slow" then (cal * 1.05, [.gainTooSlow wd], [])
      else if signal = "too_fast" then (cal * 0.97, [.gainTooFast wd], [.warnGainTooFast wd])
      else if signal = "wrong_direction" then (cal * 1.07, [.gainWrong wd], [])
      else (cal, [], [])
    else
      if signal = "on_track" then (cal, [.maintainOnTrack wd], [.achvMaintain])
      else if signal = "too_fast" then (cal * 1.07, [.maintainTooFast wd], [])
      else if signal = "too_slow" then (cal * 0.95, [.maintainTooSlow wd], [])
      else (cal, [], [])

/-- The cross-check insight (main.py 1329-1344). -/
def balanceInsight (agrees : Option Bool) (weight_delta : Option ℚ) : List Insight :=
  match agrees with
  | some true => [.achvBalanceAgree]
  | some false => if weight_delta ≠ none then [.patBalanceDisagree] else []
  | none => []

/-- The device-expenditure nudge (main.py 1347-1373). -/
def expAdjust (has_real : Bool) (evd : Option ℚ) (et : Option ℤ) (avg_exp : Option ℚ)
    (prev_cal : ℤ) (cal : ℚ) : ℚ × List Reason × List Insight :=
  if has_real = true ∧ evd ≠ none ∧ iTruthy et = true then
    let v := evd.getD 0
    if 300 < v then
      (cal + min (v * 0.30) (prev_cal * 0.05), [.expHigher (avg_exp.getD 0) (et.getD 0)],
        [.patHigherActivity v])
    else if v < -200 then
      (cal - min (|v| * 0.30) (prev_cal * 0.05), [.expLower (avg_exp.getD 0) (et.getD 0)],
        [.patLowerActivity v])
    else (cal, [], [])
  else (cal, [], [])

/-- Did the device-expenditure branch adjust (either direction)? -/
def expAdjustFires (has_real : Bool) (evd : Option ℚ) (et : Option ℤ) : Bool :=
  if has_real = true ∧ evd ≠ none ∧ iTruthy et = true ∧ (300 < evd.getD 0 ∨ evd.getD 0 < -200)
  then true else false

/-- The weekend protein bump (main.py 1376-1387). -/
def dipAdjust (dip : Bool) (wkend wkday : ℚ) (pro : ℚ) : ℚ × List Reason × List Insight :=
  if dip then (pro * 1.05, [.weekendProteinDip wkend wkday], [.patWeekendDip wkend wkday])
  else (pro, [], [])

/-- The adherence branches (main.py 1390-1408). -/
def adherenceAdjust (total_planned completed : ℕ) (adherence : ℚ) (cal : ℚ) :
    ℚ × List Reason × List Insight :=
  if 0 < total_planned ∧ adherence < 0.5 then
    (cal * 0.97, [.lowAdherence completed total_planned],
      [.warnFewerWorkouts completed total_planned])
  else if 0 < total_planned ∧ 0.8 ≤ adherence then
    (cal, [], [.achvWorkoutConsistency completed total_planned adherence])
  else (cal, [], [])

/-- The consistent-over-eating nudge (main.py 1411-1417). -/
def overAdjust (over : Bool) (goal_type : String) (avg_cal : ℚ) (prev_cal : ℤ) (cal : ℚ) :
    ℚ × List Reason :=
  if over = true ∧ goal_type ≠ "lose" then
    (cal + min ((avg_cal - prev_cal) / 2) (prev_cal * 0.10), [.consistentOverEating avg_cal prev_cal])
  else (cal, [])

/-- The calorie clamp (main.py 1422-1425): cap at ±10%, floor at 1200, round. -/
def clampCal (prev_cal : ℤ) (x : ℚ) : ℤ :=
  pyRound (max (max 1200 (min x ((prev_cal : ℚ) + prev_cal * 0.10))) ((prev_cal : ℚ) - prev_cal * 0.10))

/-- The macro clamp shape shared by protein/fat/carbs (main.py 1427-1440):
clamp an already-rounded value between the rounded ±10% bounds. -/
def clampMacroInt (prev : ℤ) (x : ℤ) : ℤ :=
  max (pyRound ((prev : ℚ) - prev * 0.10)) (min x (pyRound ((prev : ℚ) + prev * 0.10)))

/-- The logging-consistency insights (main.py 1445-1458). -/
def loggingInsights (days_logged : ℕ) : List Insight :=
  if 6 ≤ days_logged then [.achvConsistentLogging days_logged]
  else if 5 ≤ days_logged then [.tipAlmostFull days_logged]
  else []

/-- The default reasoning fallback (main.py 1460-1464). -/
def finalReasons (rs : List Reason) : List Reason :=
  if rs = [] then [.defaultNoChanges] else rs

def roundTo2 (q : ℚ) : ℚ := (pyRound (q * 100) : ℚ) / 100

structure TrendWin where
  delta : ℚ
  weight : ℚ
  entries : ℕ
  noisy : Option Bool
  deriving Repr, DecidableEq

/-- The `trend_windows` analysis dict (main.py 947-960). -/
def trendWindowsOf (w7 w30 w60 w90 : Option WindowDelta) : List (String × Option TrendWin) :=
  (windowConfig w7 w30 w60 w90).map fun lrb =>
    (lrb.1,
      match lrb.2.1 with
      | some r =>
        some ⟨roundTo2 r.delta_per_week, lrb.2.2, r.n_entries,
          if lrb.1 = "7d" then some r.is_noisy else none⟩
      | none => none)

/-- Everything `run_recalibration` computes before the final clamp
(main.py 876-1417). -/
structure PreOut where
  new_cal_f : ℚ
  new_pro_f : ℚ
  reasons : List Reason
  insights : List Insight
  stats : IntakeStats
  weight_delta : Option ℚ
  signal_used : String
  weight_trend_signal : String
  adherence : ℚ
  total_planned : ℕ
  completed : ℕ
  patterns : List String
  avg_expenditure : Option ℚ
  expenditure_vs_estimate : Option ℚ
  neat_estimate : Option ℚ
  calories_out : Option ℚ
  net_balance : Option ℚ
  energy_balance_agrees : Option Bool
  learned_neat_write : Option ℚ
  learned : Bool
  windows_used : List String
  trend_windows : List (String × Option TrendWin)
  deriving Repr, DecidableEq

def runPre (user : PyUser) (food_logs : List FLog)
    (weight_entries weight_entries_30d weight_entries_60d weight_entries_90d : List WEntry)
    (plan_sessions : List PSession) (current_goals : Goals)
    (health_metrics : List HMetric) (db : Option ℚ) : PreOut :=
  let prev_cal := current_goals.calorie_goal
  let prev_pro := current_goals.protein_goal
  let goal_type := pyOrS user.goal_type "maintain"
  let stats := intakeStats food_logs
  let w7 := compute_window_delta weight_entries 2 true
  let w30 := compute_window_delta weight_entries_30d 3 false
  let w60 := compute_window_delta weight_entries_60d 4 false
  let w90 := compute_window_delta weight_entries_90d 5 false
  let blend := blendTrend w7 w30 w60 w90
  let weight_delta := blend.weight_delta
  let signal_used := blend.signal_used
  let trend_signal := weightTrendSignal goal_type weight_delta
  let lw := latestWeight weight_entries weight_entries_30d
  let base := neatBaseline user lw
  let wk := avgWorkoutCal db plan_sessions lw
  let avg_exp := expFromMetrics health_metrics
  let has_real := avg_exp.isSome
  let co0 := caloriesOut0 avg_exp base.neat_estimate wk.1
  let nl := learnNeat user db.isSome weight_delta stats.avg_cal stats.days_logged signal_used
    base.neat_estimate co0 has_real wk.1
  let et := estimatedTdee2 user lw base.estimated_tdee
  let evd := expVsEstimate avg_exp et
  let cc := crossCheck goal_type nl.calories_out stats.avg_cal weight_delta
  let total_planned := plan_sessions.length
  let completed := (plan_sessions.filter PSession.is_completed).length
  let adherence := workoutAdherence plan_sessions
  let dip := weekendDip stats
  let under := consistentUnder prev_cal stats.avg_cal stats.days_logged
  let over := consistentOver prev_cal stats.avg_cal stats.days_logged
  let a1 := weightAdjust goal_type weight_delta trend_signal cc.2 cc.1 (prev_cal : ℚ)
  let bi := balanceInsight cc.2 weight_delta
  let a2 := expAdjust has_real evd et avg_exp prev_cal a1.1
  let a3 := dipAdjust dip stats.weekend_pro_avg stats.weekday_pro_avg (prev_pro : ℚ)
  let a4 := adherenceAdjust total_planned completed adherence a2.1
  let a5 := overAdjust over goal_type stats.avg_cal prev_cal a4.1
  { new_cal_f := a5.1
    new_pro_f := a3.1
    reasons := a1.2.1 ++ a2.2.1 ++ a3.2.1 ++ a4.2.1 ++ a5.2
    insights := a1.2.2 ++ bi ++ a2.2.2 ++ a3.2.2 ++ a4.2.2
    stats := stats
    weight_delta := weight_delta
    signal_used := signal_used
    weight_trend_signal := trend_signal
    adherence := adherence
    total_planned := total_planned
    completed := completed
    patterns :=
      (if dip then ["weekend_protein_dip"] else []) ++
      (if under then ["consistent_under_eating"] else []) ++
      (if over then ["consistent_over_eating"] else [])
    avg_expenditure := avg_exp
    expenditure_vs_estimate := evd
    neat_estimate := nl.neat_estimate
    calories_out := nl.calories_out
    net_balance := cc.1
    energy_balance_agrees := cc.2
    learned_neat_write := nl.learned_neat_write
    learned := nl.learned
    windows_used := (activeWindows w7 w30 w60 w90).map ActiveWindow.label
    trend_windows := trendWindowsOf w7 w30 w60 w90 }

/-- The `analysis` dict (main.py 1469-1486). -/
structure Analysis where
  days_logged : ℕ
  avg_calories : ℤ
  avg_protein : ℤ
  weight_delta : Option ℚ
  workout_adherence : ℤ
  patterns : List String
  avg_expenditure : Option ℤ
  expenditure_vs_estimate : Option ℤ
  neat_estimate : Option ℤ
  calories_out : Option ℤ
  net_balance : Option ℤ
  weight_trend_signal : String
  energy_balance_agrees : Option Bool
  signal_used : String
  trend_windows : List (String × Option TrendWin)
  windows_used : List String
  deriving Repr, DecidableEq

structure RecalResult where
  new_cal : ℤ
  new_pro : ℤ
  new_carbs : ℤ
  new_fat : ℤ
  analysis : Analysis
  reasons : List Reason
  insights : List Insight
  learned_neat_write : Option ℚ
  learned : Bool
  deriving Repr, DecidableEq

/-- The clamp, fallback-reasoning, logging-insight and assembly tail of
`run_recalibration` (main.py 1419-1498). -/
def mkResult (current_goals : Goals) (p : PreOut) : RecalResult :=
  let prev_cal := current_goals.calorie_goal
  let prev_pro := current_goals.protein_goal
  let prev_carbs := current_goals.carbs_goal
  let prev_fat := current_goals.fat_goal
  let new_cal := clampCal prev_cal p.new_cal_f
  let new_pro := clampMacroInt prev_pro (pyRound p.new_pro_f)
  let new_fat := clampMacroInt prev_fat (pyRound ((new_cal : ℚ) * 0.30 / 9))
  let remaining_cal : ℤ := max 0 (new_cal - new_pro * 4 - new_fat * 9)
  let new_carbs := clampMacroInt prev_carbs (pyRound ((remaining_cal : ℚ) / 4))
  { new_cal := new_cal
    new_pro := new_pro
    new_carbs := new_carbs
    new_fat := new_fat
    analysis :=
      { days_logged := p.stats.days_logged
        avg_calories := pyRound p.stats.avg_cal
        avg_protein := pyRound p.stats.avg_pro
        weight_delta := p.weight_delta.map roundTo1
        workout_adherence := pyRound (p.adherence * 100)
        patterns := p.patterns
        avg_expenditure := p.avg_expenditure.map pyRound
        expenditure_vs_estimate := p.expenditure_vs_estimate.map pyRound
        neat_estimate :=
          if qTruthy p.neat_estimate then some (pyRound (p.neat_estimate.getD 0)) else none
        calories_out :=
          if qTruthy p.calories_out then some (pyRound (p.calories_out.getD 0)) else none
        net_balance := p.net_balance.map pyRound
        weight_trend_signal := p.weight_trend_signal
        energy_balance_agrees := p.energy_balance_agrees
        signal_used := p.signal_used
        trend_windows := p.trend_windows
        windows_used := p.windows_used }
    reasons := finalReasons p.reasons
    insights := p.insights ++ loggingInsights p.stats.days_logged
    learned_neat_write := p.learned_neat_write
    learned := p.learned }

/-- Shallow embedding of `run_recalibration` (main.py 850-1498). -/
def run_recalibration (user : PyUser) (food_logs : List FLog)
    (weight_entries weight_entries_30d weight_entries_60d weight_entries_90d : List WEntry)
    (plan_sessions : List PSession) (current_goals : Goals)
    (health_metrics : List HMetric) (db : Option ℚ) : RecalResult :=
  mkResult current_goals
    (runPre user food_logs weight_entries weight_entries_30d weight_entries_60d
      weight_entries_90d plan_sessions current_goals health_metrics db)

theorem clampCal_bounds (prev : ℤ) (x : ℚ) (hp : 0 < prev) :
    pyRound ((prev : ℚ) - prev * 0.10) ≤ clampCal prev x ∧
      clampCal prev x ≤ max 1200 (pyRound ((prev : ℚ) + prev * 0.10)) := by
  have hpq : (0 : ℚ) < (prev : ℚ) := by exact_mod_cast hp
  constructor
  · exact pyRound_mono (le_max_right _ _)
  · have h1 : max (max 1200 (min x ((prev : ℚ) + prev * 0.10))) ((prev : ℚ) - prev * 0.10) ≤
        max 1200 ((prev : ℚ) + prev * 0.10) := by
      apply max_le
      · exact max_le (le_max_left _ _) (le_trans (min_le_right _ _) (le_max_right _ _))
      · refine le_trans ?_ (le_max_right _ _)
        nlinarith
    have h2 := pyRound_mono h1
    rcases le_total (1200 : ℚ) ((prev : ℚ) + prev * 0.10) with hc | hc
    · rw [max_eq_right hc] at h2
      exact le_trans h2 (le_max_right _ _)
    · rw [max_eq_left hc] at h2
      have h1200 : pyRound (1200 : ℚ) = 1200 := by
        have := pyRound_intCast 1200
        simpa using this
      rw [h1200] at h2
      exact le_trans h2 (le_max_left _ _)

theorem clampMacroInt_bounds (prev x : ℤ) (hp : 0 ≤ prev) :
    pyRound ((prev : ℚ) - prev * 0.10) ≤ clampMacroInt prev x ∧
      clampMacroInt prev x ≤ pyRound ((prev : ℚ) + prev * 0.10) := by
  have hpq : (0 : ℚ) ≤ (prev : ℚ) := by exact_mod_cast hp
  have hmono : pyRound ((prev : ℚ) - prev * 0.10) ≤ pyRound ((prev : ℚ) + prev * 0.10) :=
    pyRound_mono (by nlinarith)
  constructor
  · exact le_max_left _ _
  · exact max_le hmono (min_le_right _ _)

/-- C1 (amended): after the final clamp every returned goal lies between
`round(prev − 10%·prev)` and `round(prev + 10%·prev)` (Python `round`,
ties to even, applied to the clamp endpoints), the calorie upper bound
additionally floored at 1200.  Because the rounding is applied to the
endpoints, `|new − prev|` can exceed `round(prev·0.10)` by one where the
endpoint sits on a .5 tie or the recomputed macro rounds past it. -/
theorem C1_clamp_bounds (user : PyUser) (food_logs : List FLog)
    (we we30 we60 we90 : List WEntry) (sessions : List PSession) (goals : Goals)
    (hm : List HMetric) (db : Option ℚ)
    (hc : 0 < goals.calorie_goal) (hp : 0 < goals.protein_goal)
    (hcb : 0 < goals.carbs_goal) (hf : 0 < goals.fat_goal) :
    (pyRound ((goals.calorie_goal : ℚ) - goals.calorie_goal * 0.10) ≤
        (run_recalibration user food_logs we we30 we60 we90 sessions goals hm db).new_cal ∧
      (run_recalibration user food_logs we we30 we60 we90 sessions goals hm db).new_cal ≤
        max 1200 (pyRound ((goals.calorie_goal : ℚ) + goals.calorie_goal * 0.10))) ∧
    (pyRound ((goals.protein_goal : ℚ) - goals.protein_goal * 0.10) ≤
        (run_recalibration user food_logs we we30 we60 we90 sessions goals hm db).new_pro ∧
      (run_recalibration user food_logs we we30 we60 we90 sessions goals hm db).new_pro ≤
        pyRound ((goals.protein_goal : ℚ) + goals.protein_goal * 0.10)) ∧
    (pyRound ((goals.fat_goal : ℚ) - goals.fat_goal * 0.10) ≤
        (run_recalibration user food_logs we we30 we60 we90 sessions goals hm db).new_fat ∧
      (run_recalibration user food_logs we we30 we60 we90 sessions goals hm db).new_fat ≤
        pyRound ((goals.fat_goal : ℚ) + goals.fat_goal * 0.10)) ∧
    (pyRound ((goals.carbs_goal : ℚ) - goals.carbs_goal * 0.10) ≤
        (run_recalibration user food_logs we we30 we60 we90 sessions goals hm db).new_carbs ∧
      (run_recalibration user food_logs we we30 we60 we90 sessions goals hm db).new_carbs ≤
        pyRound ((goals.carbs_goal : ℚ) + goals.carbs_goal * 0.10)) := by
  refine ⟨clampCal_bounds _ _ hc, clampMacroInt_bounds _ _ (le_of_lt hp),
    clampMacroInt_bounds _ _ (le_of_lt hf), clampMacroInt_bounds _ _ (le_of_lt hcb)⟩

/-- C1 (counterexample): with previous goals (2160, 150, 200, 65) and no
data at all, the engine keeps calories at 2160 but recomputes fat as
`round(2160·0.30/9) = 72`, clamped against `round(71.5) = 72`; the fat goal
moves by 7 g while `round(65 × 0.10) = round(6.5) = 6` (Python ties-to-even),
so the claimed per-field bound `|new − prev| ≤ round(prev × 0.10)` fails. -/
theorem C1_clamp_counterexample :
    (run_recalibration ⟨none, none, none, none, none, none⟩ [] [] [] [] [] []
        ⟨2160, 150, 200, 65⟩ [] none).new_fat = 72 ∧
    ¬ (|(72 : ℤ) - 65| ≤ pyRound ((65 : ℚ) * 0.10)) := by
  constructor
  · simp only [run_recalibration, runPre, mkResult, intakeStats, distinctDays, sumBy,
      compute_window_delta, blendTrend, activeWindows, windowConfig, weightTrendSignal,
      latestWeight, neatBaseline, avgWorkoutCal, planWorkoutCal, expFromMetrics, caloriesOut0,
      learnNeat, estimatedTdee2, expVsEstimate, crossCheck, workoutAdherence, weekendDip,
      consistentUnder, consistentOver, weightAdjust, balanceInsight, expAdjust, dipAdjust,
      adherenceAdjust, overAdjust, clampCal, clampMacroInt, anthroOk, pyOrS, pyOrQ]
    simp
    norm_num [pyRound, Int.fract, max_def, min_def]
  · norm_num [pyRound, Int.fract]

/-- C1 witness: the amended bounds instantiated at the same concrete input. -/
theorem C1_clamp_bounds_witness :
    (pyRound (((2160 : ℤ) : ℚ) - (2160 : ℤ) * 0.10) ≤
        (run_recalibration ⟨none, none, none, none, none, none⟩ [] [] [] [] [] []
          ⟨2160, 150, 200, 65⟩ [] none).new_cal ∧
      (run_recalibration ⟨none, none, none, none, none, none⟩ [] [] [] [] [] []
          ⟨2160, 150, 200, 65⟩ [] none).new_cal ≤
        max 1200 (pyRound (((2160 : ℤ) : ℚ) + (2160 : ℤ) * 0.10))) ∧
    (pyRound (((150 : ℤ) : ℚ) - (150 : ℤ) * 0.10) ≤
        (run_recalibration ⟨none, none, none, none, none, none⟩ [] [] [] [] [] []
          ⟨2160, 150, 200, 65⟩ [] none).new_pro ∧
      (run_recalibration ⟨none, none, none, none, none, none⟩ [] [] [] [] [] []
          ⟨2160, 150, 200, 65⟩ [] none).new_pro ≤
        pyRound (((150 : ℤ) : ℚ) + (150 : ℤ) * 0.10)) ∧
    (pyRound (((65 : ℤ) : ℚ) - (65 : ℤ) * 0.10) ≤
        (run_recalibration ⟨none, none, none, none, none, none⟩ [] [] [] [] [] []
          ⟨2160, 150, 200, 65⟩ [] none).new_fat ∧
      (run_recalibration ⟨none, none, none, none, none, none⟩ [] [] [] [] [] []
          ⟨2160, 150, 200, 65⟩ [] none).new_fat ≤
        pyRound (((65 : ℤ) : ℚ) + (65 : ℤ) * 0.10)) ∧
    (pyRound (((200 : ℤ) : ℚ) - (200 : ℤ) * 0.10) ≤
        (run_recalibration ⟨none, none, none, none, none, none⟩ [] [] [] [] [] []
          ⟨2160, 150, 200, 65⟩ [] none).new_carbs ∧
      (run_recalibration ⟨none, none, none, none, none, none⟩ [] [] [] [] [] []
          ⟨2160, 150, 200, 65⟩ [] none).new_carbs ≤
        pyRound (((200 : ℤ) : ℚ) + (200 : ℤ) * 0.10)) :=
  C1_clamp_bounds ⟨none, none, none, none, none, none⟩ [] [] [] [] [] []
    ⟨2160, 150, 200, 65⟩ [] none (by norm_num) (by norm_num) (by norm_num) (by norm_num)

/-- C2: the NEAT learning step.  The smoothing branch runs exactly when the
blended delta is known, at least 5 days were logged, average calories are
positive, the signal is 7d/30d/multi-window derived, and the calculated
NEAT `avg_cal − (delta/7)·3500` clears the 800 kcal sanity floor; it then
produces the exponential smoothing `0.7·prior + 0.3·calculated` with prior
the truthy stored `learned_neat`, else the baseline estimate, else the
calculated value itself (so an existing `learned_neat` is never replaced by
an unsmoothed value), persists it (rounded to one decimal) only when a db
handle exists, uses the fresh value for the run, and recomputes
`calories_out` unless device expenditure is in use; otherwise every output
is passed through unchanged. -/
theorem C2_learn_neat (u : PyUser) (hasDb : Bool) (wd : Option ℚ) (avg_cal : ℚ)
    (days : ℕ) (signal : String) (neat0 co0 : Option ℚ) (has_real : Bool) (awc : ℚ) :
    ((learnNeat u hasDb wd avg_cal days signal neat0 co0 has_real awc).learned = true ↔
      (∃ w, wd = some w ∧ 0 < avg_cal ∧ 5 ≤ days ∧
        (signal = "weight_7d" ∨ signal = "weight_30d" ∨ signal = "multi_window") ∧
        800 < avg_cal - w / 7 * 3500)) ∧
    (∀ w, wd = some w → 0 < avg_cal → 5 ≤ days →
      (signal = "weight_7d" ∨ signal = "weight_30d" ∨ signal = "multi_window") →
      800 < avg_cal - w / 7 * 3500 →
      (learnNeat u hasDb wd avg_cal days signal neat0 co0 has_real awc).neat_estimate =
          some (0.7 * (if qTruthy u.learned_neat then u.learned_neat.getD 0
              else pyOrQ neat0 (avg_cal - w / 7 * 3500)) +
            0.3 * (avg_cal - w / 7 * 3500)) ∧
        (learnNeat u hasDb wd avg_cal days signal neat0 co0 has_real awc).learned_neat_write =
          (if hasDb then
            some (roundTo1 (0.7 * (if qTruthy u.learned_neat then u.learned_neat.getD 0
                else pyOrQ neat0 (avg_cal - w / 7 * 3500)) +
              0.3 * (avg_cal - w / 7 * 3500)))
           else none) ∧
        (learnNeat u hasDb wd avg_cal days signal neat0 co0 has_real awc).calories_out =
          (if has_real = false then
            some ((0.7 * (if qTruthy u.learned_neat then u.learned_neat.getD 0
                else pyOrQ neat0 (avg_cal - w / 7 * 3500)) +
              0.3 * (avg_cal - w / 7 * 3500)) + awc)
           else co0)) ∧
    ((learnNeat u hasDb wd avg_cal days signal neat0 co0 has_real awc).learned = false →
      learnNeat u hasDb wd avg_cal days signal neat0 co0 has_real awc =
        ⟨neat0, co0, none, false⟩) := by
  cases wd with
  | none =>
    refine ⟨by simp [learnNeat], ?_, fun _ => rfl⟩
    intro w hw
    exact absurd hw (by simp)
  | some w0 =>
    simp only [learnNeat]
    by_cases hcond : 0 < avg_cal ∧ 5 ≤ days ∧
        (signal = "weight_7d" ∨ signal = "weight_30d" ∨ signal = "multi_window")
    · rw [if_pos hcond]
      by_cases hcalc : 800 < avg_cal - w0 / 7 * 3500
      · rw [if_pos hcalc]
        refine ⟨?_, ?_, ?_⟩
        · simp only [true_iff]
          exact ⟨w0, rfl, hcond.1, hcond.2.1, hcond.2.2, hcalc⟩
        · intro w hw
          obtain rfl : w0 = w := by injection hw
          intro _ _ _ _
          exact ⟨rfl, rfl, rfl⟩
        · intro hfalse
          exact absurd hfalse (by simp)
      · rw [if_neg hcalc]
        refine ⟨?_, ?_, fun _ => rfl⟩
        · simp only [Bool.false_eq_true, false_iff]
          rintro ⟨w, hw, h1, h2, h3, h4⟩
          obtain rfl : w0 = w := by injection hw
          exact hcalc h4
        · intro w hw h1 h2 h3 h4
          obtain rfl : w0 = w := by injection hw
          exact absurd h4 hcalc
    · rw [if_neg hcond]
      refine ⟨?_, ?_, fun _ => rfl⟩
      · simp only [Bool.false_eq_true, false_iff]
        rintro ⟨w, hw, h1, h2, h3, h4⟩
        obtain rfl : w0 = w := by injection hw
        exact hcond ⟨h1, h2, h3⟩
      · intro w hw h1 h2 h3 h4
        obtain rfl : w0 = w := by injection hw
        exact absurd ⟨h1, h2, h3⟩ hcond

theorem classifyTrend_lose (d : ℚ) :
    classifyTrend "lose" d =
      if d < -2 then "too_fast"
      else if d ≤ -0.5 then "on_track"
      else if d ≤ 0 then "too_slow"
      else "wrong_direction" := by
  simp only [classifyTrend]
  split_ifs <;> simp_all
  linarith

/-- C5: for goal "lose" and a known delta, the weight-trend calorie step is
×1.05 on too_fast, unchanged on on_track, ×0.97 on too_slow exactly when the
energy-balance cross-check is `False` (unchanged on `True` or `None`), and
×0.95 on wrong_direction exactly when the cross-check is `False` and the net
balance is a known surplus. -/
theorem C5_lose_adjustment (wd : ℚ) (agrees : Option Bool) (nb : Option ℚ) (cal : ℚ) :
    (wd < -2 →
      (weightAdjust "lose" (some wd) (classifyTrend "lose" wd) agrees nb cal).1 = cal * 1.05) ∧
    (-2 ≤ wd → wd ≤ -0.5 →
      (weightAdjust "lose" (some wd) (classifyTrend "lose" wd) agrees nb cal).1 = cal) ∧
    (-0.5 < wd → wd ≤ 0 →
      (weightAdjust "lose" (some wd) (classifyTrend "lose" wd) agrees nb cal).1 =
        (if agrees = some false then cal * 0.97 else cal)) ∧
    (0 < wd →
      (weightAdjust "lose" (some wd) (classifyTrend "lose" wd) agrees nb cal).1 =
        (if agrees = some false ∧ 0 < nb.getD 0 then cal * 0.95 else cal)) := by
  refine ⟨?_, ?_, ?_, ?_⟩
  · intro h
    rw [classifyTrend_lose, if_pos h]
    simp [weightAdjust]
  · intro h1 h2
    rw [classifyTrend_lose, if_neg (by linarith), if_pos h2]
    simp [weightAdjust]
  · intro h1 h2
    rw [classifyTrend_lose, if_neg (by linarith), if_neg (by linarith), if_pos h2]
    by_cases hag : agrees = some false <;> simp [weightAdjust, hag]
  · intro h
    rw [classifyTrend_lose, if_neg (by linarith), if_neg (by linarith), if_neg (by linarith)]
    rcases nb with _ | v
    · simp [weightAdjust]
    · by_cases hag : agrees = some false
      · by_cases hv : 0 < v
        · simp [weightAdjust, hag, hv]
        · simp [weightAdjust, hag, hv]
      · simp [weightAdjust, hag]

theorem no_db_no_write_aux (user : PyUser) (food_logs : List FLog)
    (we we30 we60 we90 : List WEntry) (sessions : List PSession) (goals : Goals)
    (hm : List HMetric) :
    (run_recalibration user food_logs we we30 we60 we90 sessions goals hm
        none).learned_neat_write = none := by
  show (runPre user food_logs we we30 we60 we90 sessions goals hm none).learned_neat_write = none
  show (learnNeat user (none : Option ℚ).isSome
      (blendTrend (compute_window_delta we 2 true) (compute_window_delta we30 3 false)
        (compute_window_delta we60 4 false) (compute_window_delta we90 5 false)).weight_delta
      (intakeStats food_logs).avg_cal (intakeStats food_logs).days_logged
      (blendTrend (compute_window_delta we 2 true) (compute_window_delta we30 3 false)
        (compute_window_delta we60 4 false) (compute_window_delta we90 5 false)).signal_used
      (neatBaseline user (latestWeight we we30)).neat_estimate
      (caloriesOut0 (expFromMetrics hm) (neatBaseline user (latestWeight we we30)).neat_estimate
        (avgWorkoutCal none sessions (latestWeight we we30)).1)
      (expFromMetrics hm).isSome
      (avgWorkoutCal none sessions (latestWeight we we30)).1).learned_neat_write = none
  unfold learnNeat
  cases hbd : (blendTrend (compute_window_delta we 2 true) (compute_window_delta we30 3 false)
      (compute_window_delta we60 4 false) (compute_window_delta we90 5 false)).weight_delta with
  | none => rfl
  | some w =>
    simp only [Option.isSome_none]
    split_ifs <;> simp_all

theorem weightAdjust_maintain_on_track (wd : ℚ) (ag : Option Bool) (nb : Option ℚ) (cal : ℚ) :
    weightAdjust "maintain" (some wd) "on_track" ag nb cal =
      (cal, [.maintainOnTrack wd], [.achvMaintain]) := rfl

theorem classifyTrend_maintain_band (wd : ℚ) (h : |wd| < 0.5) :
    classifyTrend "maintain" wd = "on_track" := by
  unfold classifyTrend
  rw [if_neg (by simp), if_neg (by simp), if_pos h]

theorem expAdjust_noop (hr : Bool) (evd : Option ℚ) (et : Option ℤ)
    (hfires : expAdjustFires hr evd et = false) (ax : Option ℚ) (prev : ℤ) (cal : ℚ) :
    expAdjust hr evd et ax prev cal = (cal, [], []) := by
  unfold expAdjustFires at hfires
  unfold expAdjust
  by_cases hcond : hr = true ∧ evd ≠ none ∧ iTruthy et = true
  · rw [if_pos hcond]
    have hnod : ¬(300 < evd.getD 0 ∨ evd.getD 0 < -200) := by
      intro hd
      rw [if_pos ⟨hcond.1, hcond.2.1, hcond.2.2, hd⟩] at hfires
      exact Bool.true_eq_false.mp hfires
    rw [if_neg fun h => hnod (Or.inl h), if_neg fun h => hnod (Or.inr h)]
  · rw [if_neg hcond]

theorem dipAdjust_false (a b pro : ℚ) : dipAdjust false a b pro = (pro, [], []) := rfl

theorem adherenceAdjust_high (total comp : ℕ) (adh cal : ℚ)
    (h1 : 0 < total) (h2 : 0.8 ≤ adh) :
    adherenceAdjust total comp adh cal = (cal, [], [.achvWorkoutConsistency comp total adh]) := by
  unfold adherenceAdjust
  rw [if_neg fun h => absurd h.2 (by norm_num at h2 ⊢; linarith), if_pos ⟨h1, h2⟩]

theorem overAdjust_false (gt : String) (avg : ℚ) (prev : ℤ) (cal : ℚ) :
    overAdjust false gt avg prev cal = (cal, []) := by
  unfold overAdjust
  rw [if_neg fun h => Bool.false_ne_true h.1]

theorem workoutAdherence_nil : workoutAdherence [] = 0 := by
  simp [workoutAdherence]

theorem clampCal_self (prev : ℤ) (h : 1200 ≤ prev) : clampCal prev (prev : ℚ) = prev := by
  unfold clampCal
  have hq : (1200 : ℚ) ≤ (prev : ℚ) := by exact_mod_cast h
  have hd : (0 : ℚ) ≤ (prev : ℚ) * 0.10 := by nlinarith
  rw [min_eq_left (by linarith), max_eq_right hq, max_eq_left (by linarith)]
  exact pyRound_intCast prev

theorem clampMacroInt_self (prev : ℤ) (h : 0 ≤ prev) : clampMacroInt prev prev = prev := by
  unfold clampMacroInt
  have hq : (0 : ℚ) ≤ (prev : ℚ) := by exact_mod_cast h
  have hd : (0 : ℚ) ≤ (prev : ℚ) * 0.10 := by nlinarith
  have hlo : pyRound ((prev : ℚ) - prev * 0.10) ≤ prev := by
    have := pyRound_mono (show (prev : ℚ) - prev * 0.10 ≤ (prev : ℚ) by linarith)
    rwa [pyRound_intCast] at this
  have hhi : prev ≤ pyRound ((prev : ℚ) + prev * 0.10) := by
    have := pyRound_mono (show (prev : ℚ) ≤ (prev : ℚ) + prev * 0.10 by linarith)
    rwa [pyRound_intCast] at this
  rw [min_eq_left hhi, max_eq_right hlo]

/-- C6 (amended): for a maintain-goal user with blended delta in
(−0.5, 0.5), adherence ≥ 0.8, no weekend protein dip, no qualifying
device-expenditure divergence, and intake within 15% of the calorie goal
(which is ≥ 1200), the engine keeps the calorie and protein goals exactly
and its reasoning is exactly the maintenance achievement text (never the
default "no changes needed" placeholder); fat and carbs, however, are
recomputed from the unchanged calorie goal and clamped to ±10% of their
previous values, so they equal the previous goals only when those were
already consistent with the recompute. -/
theorem C6_maintain_no_op (user : PyUser) (food_logs : List FLog)
    (we we30 we60 we90 : List WEntry) (sessions : List PSession) (goals : Goals)
    (hm : List HMetric) (db : Option ℚ) (wd : ℚ)
    (hgoal : pyOrS user.goal_type "maintain" = "maintain")
    (hwd : (blendTrend (compute_window_delta we 2 true) (compute_window_delta we30 3 false)
        (compute_window_delta we60 4 false) (compute_window_delta we90 5 false)).weight_delta =
      some wd)
    (hband : |wd| < 0.5)
    (hadh : 0.8 ≤ workoutAdherence sessions)
    (hdip : weekendDip (intakeStats food_logs) = false)
    (hexp : expAdjustFires (expFromMetrics hm).isSome
        (expVsEstimate (expFromMetrics hm)
          (estimatedTdee2 user (latestWeight we we30)
            (neatBaseline user (latestWeight we we30)).estimated_tdee))
        (estimatedTdee2 user (latestWeight we we30)
          (neatBaseline user (latestWeight we we30)).estimated_tdee) = false)
    (hover : (intakeStats food_logs).avg_cal ≤ goals.calorie_goal * 1.15)
    (hcal : 1200 ≤ goals.calorie_goal) (hpro : 0 ≤ goals.protein_goal) :
    (run_recalibration user food_logs we we30 we60 we90 sessions goals hm db).new_cal =
        goals.calorie_goal ∧
    (run_recalibration user food_logs we we30 we60 we90 sessions goals hm db).new_pro =
        goals.protein_goal ∧
    (run_recalibration user food_logs we we30 we60 we90 sessions goals hm db).reasons =
        [Reason.maintainOnTrack wd] ∧
    (run_recalibration user food_logs we we30 we60 we90 sessions goals hm db).new_fat =
        clampMacroInt goals.fat_goal (pyRound ((goals.calorie_goal : ℚ) * 0.30 / 9)) ∧
    (run_recalibration user food_logs we we30 we60 we90 sessions goals hm db).new_carbs =
        clampMacroInt goals.carbs_goal
          (pyRound (((max 0 (goals.calorie_goal - goals.protein_goal * 4 -
            clampMacroInt goals.fat_goal (pyRound ((goals.calorie_goal : ℚ) * 0.30 / 9)) * 9) :
              ℤ) : ℚ) / 4)) := by
  have hsessions : 0 < sessions.length := by
    rcases sessions with _ | ⟨s, t⟩
    · rw [workoutAdherence_nil] at hadh
      norm_num at hadh
    · simp
  have hoverflag : consistentOver goals.calorie_goal (intakeStats food_logs).avg_cal
      (intakeStats food_logs).days_logged = false := by
    unfold consistentOver
    rw [if_neg]
    rintro ⟨-, h2, -⟩
    linarith
  have hsig2 : weightTrendSignal "maintain" (some wd) = "on_track" :=
    classifyTrend_maintain_band wd hband
  simp only [run_recalibration, runPre, mkResult]
  rw [hgoal, hwd, hsig2, weightAdjust_maintain_on_track]
  rw [expAdjust_noop _ _ _ hexp]
  rw [hdip, dipAdjust_false]
  rw [adherenceAdjust_high _ _ _ _ hsessions hadh]
  rw [hoverflag, overAdjust_false]
  dsimp only
  rw [clampCal_self _ hcal, pyRound_intCast, clampMacroInt_self _ hpro]
  exact ⟨rfl, rfl, rfl, rfl, rfl⟩

/-- Concrete maintain-goal scenario: 7 days of 2000 kcal / 150 g protein,
flat weight, 4 of 5 sessions done, no device data. -/
def c6User : PyUser := ⟨some "maintain", none, none, none, none, none⟩

def c6Logs : List FLog :=
  [⟨0, some 2000, some 150, none, none⟩, ⟨1, some 2000, some 150, none, none⟩,
   ⟨2, some 2000, some 150, none, none⟩, ⟨3, some 2000, some 150, none, none⟩,
   ⟨4, some 2000, some 150, none, none⟩, ⟨5, some 2000, some 150, none, none⟩,
   ⟨6, some 2000, some 150, none, none⟩]

def c6We : List WEntry := [⟨0, 180⟩, ⟨6, 180⟩]

def c6Sessions : List PSession :=
  [⟨true, none⟩, ⟨true, none⟩, ⟨true, none⟩, ⟨true, none⟩, ⟨false, none⟩]

def c6Goals : Goals := ⟨2000, 150, 200, 80⟩

theorem c6_blend_eval :
    (blendTrend (compute_window_delta c6We 2 true) (compute_window_delta [] 3 false)
        (compute_window_delta [] 4 false) (compute_window_delta [] 5 false)).weight_delta =
      some 0 := by
  norm_num [c6We, compute_window_delta, sortByTime, insertByTime, sampleVariance, blendTrend,
    activeWindows, windowConfig, Int.fract, max_def, min_def]

theorem c6_stats_eval : intakeStats c6Logs = ⟨7, 2000, 150, 150, 150, 2⟩ := by
  norm_num [c6Logs, intakeStats, distinctDays, sumBy, isWeekendLog, max_def]

theorem c6_adherence_eval : workoutAdherence c6Sessions = 4/5 := by
  norm_num [c6Sessions, workoutAdherence, max_def]

set_option maxRecDepth 10000 in
set_option maxHeartbeats 1000000 in
theorem c6_run_eval :
    (run_recalibration c6User c6Logs c6We [] [] [] c6Sessions c6Goals [] none).new_fat = 72 ∧
    (run_recalibration c6User c6Logs c6We [] [] [] c6Sessions c6Goals [] none).new_cal = 2000 ∧
    (run_recalibration c6User c6Logs c6We [] [] [] c6Sessions c6Goals [] none).new_pro = 150 ∧
    (run_recalibration c6User c6Logs c6We [] [] [] c6Sessions c6Goals [] none).learned = true ∧
    (run_recalibration c6User c6Logs c6We [] [] [] c6Sessions c6Goals []
        none).analysis.neat_estimate = some 2000 ∧
    (run_recalibration c6User c6Logs c6We [] [] [] c6Sessions c6Goals []
        none).analysis.calories_out = some 2000 := by
  have hml : ("maintain" = "lose") = False := by simp
  have hmg : ("maintain" = "gain") = False := by simp
  have hme : ("maintain" = "") = False := by simp
  have happ : ("weight_" ++ "7d" : String) = "weight_7d" := rfl
  refine ⟨?_, ?_, ?_, ?_, ?_, ?_⟩ <;>
    · norm_num [run_recalibration, runPre, mkResult, c6User, c6Logs, c6We, c6Sessions, c6Goals,
        intakeStats, distinctDays, sumBy, isWeekendLog, compute_window_delta, sortByTime,
        insertByTime, sampleVariance, blendTrend, activeWindows, windowConfig, weightTrendSignal,
        classifyTrend, latestWeight, neatBaseline, avgWorkoutCal, planWorkoutCal, expFromMetrics,
        caloriesOut0, learnNeat, estimatedTdee2, expVsEstimate, crossCheck, workoutAdherence,
        weekendDip, consistentUnder, consistentOver, weightAdjust, balanceInsight, expAdjust,
        dipAdjust, adherenceAdjust, overAdjust, clampCal, clampMacroInt, anthroOk, pyOrS, pyOrQ,
        hml, hmg, hme, happ, pyRound, Int.fract, max_def, min_def]

/-- C6 (counterexample): this run satisfies every condition of the claim
(maintain goal, blended delta 0 ∈ (−0.5, 0.5), adherence 0.8, no weekend
dip, no device data, intake exactly at goal), yet the returned fat goal is
72 g while the previous was 80 g (round(2000·0.30/9) = 67 clamped up to the
−10% bound 72), so `new_goals` ≠ `prev_goals`. -/
theorem C6_maintain_counterexample :
    pyOrS c6User.goal_type "maintain" = "maintain" ∧
    (blendTrend (compute_window_delta c6We 2 true) (compute_window_delta [] 3 false)
        (compute_window_delta [] 4 false) (compute_window_delta [] 5 false)).weight_delta =
      some 0 ∧
    workoutAdherence c6Sessions = 4/5 ∧
    weekendDip (intakeStats c6Logs) = false ∧
    expFromMetrics [] = none ∧
    (intakeStats c6Logs).avg_cal = 2000 ∧
    (run_recalibration c6User c6Logs c6We [] [] [] c6Sessions c6Goals [] none).new_fat = 72 ∧
    c6Goals.fat_goal = 80 := by
  refine ⟨rfl, c6_blend_eval, c6_adherence_eval, ?_, rfl, ?_, c6_run_eval.1, rfl⟩
  · rw [c6_stats_eval]
    simp only [weekendDip]
    norm_num
  · rw [c6_stats_eval]

/-- C6 witness: the amended no-op conclusion at the concrete scenario. -/
theorem C6_maintain_no_op_witness :
    (run_recalibration c6User c6Logs c6We [] [] [] c6Sessions c6Goals [] none).new_cal =
        c6Goals.calorie_goal ∧
    (run_recalibration c6User c6Logs c6We [] [] [] c6Sessions c6Goals [] none).new_pro =
        c6Goals.protein_goal ∧
    (run_recalibration c6User c6Logs c6We [] [] [] c6Sessions c6Goals [] none).reasons =
        [Reason.maintainOnTrack 0] ∧
    (run_recalibration c6User c6Logs c6We [] [] [] c6Sessions c6Goals [] none).new_fat =
        clampMacroInt c6Goals.fat_goal (pyRound ((c6Goals.calorie_goal : ℚ) * 0.30 / 9)) ∧
    (run_recalibration c6User c6Logs c6We [] [] [] c6Sessions c6Goals [] none).new_carbs =
        clampMacroInt c6Goals.carbs_goal
          (pyRound (((max 0 (c6Goals.calorie_goal - c6Goals.protein_goal * 4 -
            clampMacroInt c6Goals.fat_goal (pyRound ((c6Goals.calorie_goal : ℚ) * 0.30 / 9)) * 9) :
              ℤ) : ℚ) / 4)) :=
  C6_maintain_no_op c6User c6Logs c6We [] [] [] c6Sessions c6Goals [] none 0
    rfl c6_blend_eval (by norm_num)
    (by rw [c6_adherence_eval]; norm_num)
    (by rw [c6_stats_eval]; simp only [weekendDip]; norm_num)
    rfl
    (by rw [c6_stats_eval]; norm_num [c6Goals])
    (by norm_num [c6Goals]) (by norm_num [c6Goals])

/-- C10: with `db = None` the engine never writes the user record —
`learned_neat_write` is `none` for every input — even in runs where the
learning conditions hold and a freshly smoothed value is computed and used
internally: in the concrete scenario the run learned (`learned = true`),
its own `neat_estimate`/`calories_out` use the smoothed value 2000, and yet
the user's prior `learned_neat` (here `none`) receives no write. -/
theorem C10_no_db_no_write :
    (∀ (user : PyUser) (food_logs : List FLog) (we we30 we60 we90 : List WEntry)
        (sessions : List PSession) (goals : Goals) (hm : List HMetric),
      (run_recalibration user food_logs we we30 we60 we90 sessions goals hm
          none).learned_neat_write = none) ∧
    (run_recalibration c6User c6Logs c6We [] [] [] c6Sessions c6Goals [] none).learned = true ∧
    (run_recalibration c6User c6Logs c6We [] [] [] c6Sessions c6Goals []
        none).analysis.neat_estimate = some 2000 ∧
    (run_recalibration c6User c6Logs c6We [] [] [] c6Sessions c6Goals []
        none).analysis.calories_out = some 2000 ∧
    c6User.learned_neat = none :=
  ⟨no_db_no_write_aux, c6_run_eval.2.2.2.1, c6_run_eval.2.2.2.2.1,
    c6_run_eval.2.2.2.2.2, rfl⟩

end FoodEnough
